import Mathlib

/-! HDF5 compression benchmark: the mirror walker, the run executor and the parameter deriver.

A shallow embedding of `src/hdf5_processor.cpp`, `src/compression_tester.cpp` and
`src/filter_definitions.hpp`.

Conventions of the embedding.

* `int` values are integers in the range `-2^31 .. 2^31 - 1` (`IsInt32`); the product
  computed in `int` is reduced with `wrapInt32` (two's complement), the conversion
  `int -> unsigned int` is `toUInt32`.
* `size_t` / `hsize_t` byte counts are natural numbers.  They count bytes stored in one
  container, so 64-bit wrap-around is not part of the model.
* `hid_t`, `herr_t`, `htri_t`, `ssize_t` results of the HDF5 library are integers; the
  library itself is not modelled: every call the code makes receives its result from an
  environment record (`VisitEnv`, `TrialEnv`), so every theorem quantifies over all
  outcomes of the library calls.
* `double` values are rational numbers: the quotient of two byte totals is exact.
-/

namespace HDF5Bench

/-! ## Machine integers -/

/-- The values of the C++ type `int`. -/
def IsInt32 (x : Int) : Prop := -2147483648 ≤ x ∧ x ≤ 2147483647

instance (x : Int) : Decidable (IsInt32 x) := by
  unfold IsInt32; exact inferInstance

/-- Reduction of an integer to the two's-complement `int` with the same low 32 bits. -/
def wrapInt32 (x : Int) : Int := (x + 2147483648) % 4294967296 - 2147483648

/-- Conversion `int -> unsigned int` (value modulo `2^32`). -/
def toUInt32 (x : Int) : Nat := (x % 4294967296).toNat

/-! ## Filter identifiers (`filter_definitions.hpp`) -/

def H5Z_FILTER_DEFLATE : Int := 1
def H5Z_FILTER_SHUFFLE : Int := 2
def H5Z_FILTER_FLETCHER32 : Int := 3
def H5Z_FILTER_SZIP : Int := 4
def H5Z_FILTER_NBIT : Int := 5
def H5Z_FILTER_SCALEOFFSET : Int := 6
def H5Z_FILTER_BZIP2 : Int := 307
def H5Z_FILTER_BLOSC : Int := 32001
def H5Z_FILTER_LZ4 : Int := 32004
def H5Z_FILTER_LZF : Int := 32005
def H5Z_FILTER_BSHUF : Int := 32008
def H5Z_FILTER_ZFP : Int := 32013
def H5Z_FILTER_ZSTD : Int := 32015
def H5Z_FILTER_BITGROOM : Int := 32018
def H5Z_FILTER_GRANULARBR : Int := 32019
def H5Z_FILTER_VBZ : Int := 32020
def H5Z_FILTER_BLOSC2 : Int := 32026

/-- `getFilterIdFromName` of `hdf5_processor.cpp`: the chain of name comparisons,
`-1` for a name that matches none. -/
def getFilterIdFromName (filter_name : String) : Int :=
  if filter_name = "GZIP" ∨ filter_name = "DEFLATE" then H5Z_FILTER_DEFLATE
  else if filter_name = "SHUFFLE" then H5Z_FILTER_SHUFFLE
  else if filter_name = "FLETCHER32" then H5Z_FILTER_FLETCHER32
  else if filter_name = "SZIP" then H5Z_FILTER_SZIP
  else if filter_name = "NBIT" then H5Z_FILTER_NBIT
  else if filter_name = "SCALEOFFSET" then H5Z_FILTER_SCALEOFFSET
  else if filter_name = "BITGROOM" then H5Z_FILTER_BITGROOM
  else if filter_name = "BLOSC" then H5Z_FILTER_BLOSC
  else if filter_name = "BLOSC2" then H5Z_FILTER_BLOSC2
  else if filter_name = "BSHUF" then H5Z_FILTER_BSHUF
  else if filter_name = "BZIP2" then H5Z_FILTER_BZIP2
  else if filter_name = "GRANULARBR" then H5Z_FILTER_GRANULARBR
  else if filter_name = "LZ4" then H5Z_FILTER_LZ4
  else if filter_name = "LZF" then H5Z_FILTER_LZF
  else if filter_name = "ZFP" then H5Z_FILTER_ZFP
  else if filter_name = "ZSTD" then H5Z_FILTER_ZSTD
  else if filter_name = "VBZ" then H5Z_FILTER_VBZ
  else -1

/-! ## Filter parameter deriver (`getDefaultFilterParams` of `hdf5_processor.cpp`) -/

/-- The `H5Z_FILTER_ZSTD` case: `level = compression_level * 20 / 9` in `int`
arithmetic, clamped from above by 20, stored as `unsigned int`. -/
def zstdParams (compression_level : Int) : List Nat :=
  if compression_level ≤ 0 then [3]
  else
    let level := Int.tdiv (wrapInt32 (compression_level * 20)) 9
    let level := if level > 20 then 20 else level
    [toUInt32 level]

/-- The `H5Z_FILTER_LZ4` case: block size `65535`, or
`numeric_limits<unsigned int>::max() / compression_level` in `unsigned int` arithmetic. -/
def lz4Params (compression_level : Int) : List Nat :=
  if compression_level ≤ 0 then [65535]
  else [4294967295 / toUInt32 compression_level]

/-- The `H5Z_FILTER_BLOSC` / `H5Z_FILTER_BLOSC2` level: `compression_level` capped at 9. -/
def bloscLevel (compression_level : Int) : Int :=
  if compression_level > 9 then 9 else compression_level

/-- The static `getDefaultFilterParams(filter_id, compression_level)` that
`testCompression` calls: the `switch` over the filter identifier. -/
def getDefaultFilterParams (filter_id compression_level : Int) : List Nat :=
  if filter_id = H5Z_FILTER_DEFLATE then [toUInt32 compression_level]
  else if filter_id = H5Z_FILTER_BZIP2 then
    [toUInt32 (if compression_level > 0 ∧ compression_level < 9 then compression_level else 2)]
  else if filter_id = H5Z_FILTER_LZ4 then lz4Params compression_level
  else if filter_id = H5Z_FILTER_ZSTD then zstdParams compression_level
  else if filter_id = H5Z_FILTER_BLOSC then
    [0, 0, 0, 0, toUInt32 (bloscLevel compression_level), 1, 2]
  else if filter_id = H5Z_FILTER_BLOSC2 then
    [0, 0, 0, 0, toUInt32 (bloscLevel compression_level), 1, 2, 2, 4, 8]
  else if filter_id = H5Z_FILTER_SZIP then
    [4, if compression_level = 4 ∨ compression_level = 8 ∨ compression_level = 32
        then toUInt32 compression_level else 32]
  else if filter_id = H5Z_FILTER_VBZ then
    [1, 2, 1, toUInt32 (if compression_level > 0 then compression_level else 3)]
  else if compression_level > 0 then [toUInt32 compression_level]
  else []

/-! ## Container mirror walker (`process_callback` in `testCompression`) -/

/-- The object kinds `process_callback` distinguishes in `obj_info.type`:
`H5O_TYPE_GROUP`, `H5O_TYPE_DATASET`, and every other value. -/
inductive ObjType where
  | group
  | dataset
  | other
deriving DecidableEq, Repr

/-- The resources one callback invocation acquires: the object-copy property list,
the destination group opened for child enumeration, and the seven per-dataset
resources. -/
inductive Handle where
  | ocpypl
  | dstGroup
  | srcDset
  | srcDcpl
  | srcType
  | srcSpace
  | dcpl
  | dstDset
  | buffer
deriving DecidableEq, Repr, Fintype

/-- One acquisition or release of a resource. -/
inductive HandleEv where
  | acquire (h : Handle)
  | release (h : Handle)
deriving DecidableEq, Repr

/-- One filter-application call on the dataset creation property list:
`H5Pset_szip`, `H5Pset_shuffle`, `H5Pset_deflate`, or `H5Pset_filter` with the
`H5Z_FLAG_MANDATORY` (`true`) or `H5Z_FLAG_OPTIONAL` (`false`) flag. -/
inductive FilterCall where
  | szip (options_mask pixels_per_block : Nat)
  | shuffle
  | deflate (level : Nat)
  | generic (filter_id : Int) (mandatory : Bool) (cd_values : List Nat)
deriving DecidableEq, Repr

/-- One member of a destination group as `H5Gget_objname_by_idx` and
`H5Oget_info_by_name` report it. -/
structure ChildEnv where
  /-- Contents of `child_name`. -/
  name : String
  /-- Result of `H5Gget_objname_by_idx`. -/
  nameLen : Int
  /-- Result of `H5Oget_info_by_name(dst_group_id, child_name, ...)`. -/
  infoStatus : Int
  /-- Reported `child_info.type`. -/
  type : ObjType

/-- The link visited by one callback invocation together with the result of every
library call the invocation can make. -/
structure VisitEnv where
  /-- The `name` argument: the path of the link relative to the root. -/
  name : String
  /-- Result of `H5Oget_info_by_name(group, name, ...)`. -/
  infoStatus : Int
  /-- Reported `obj_info.type`. -/
  objType : ObjType
  /-- Result of `H5Pcreate(H5P_OBJECT_COPY)`. -/
  ocpyplId : Int
  /-- Result of `H5Ocopy`. -/
  copyStatus : Int
  /-- Result of `H5Gopen` on the destination group. -/
  dstGroupId : Int
  /-- Result of `H5Gget_num_objs`. -/
  numStatus : Int
  /-- Members of the destination group after the copy; `num_objs` is the length. -/
  children : List ChildEnv
  /-- Result of `H5Dopen` on the source dataset. -/
  srcDsetId : Int
  /-- Result of `H5Dget_create_plist`. -/
  srcDcplId : Int
  /-- Result of `H5Dget_type`. -/
  srcTypeId : Int
  /-- Result of `H5Dget_space`. -/
  srcSpaceId : Int
  /-- Result of `H5Sget_simple_extent_ndims`. -/
  rank : Int
  /-- Contents of the `dims` array after `H5Sget_simple_extent_dims`. -/
  dims : Nat → Nat
  /-- Result of `H5Pcreate(H5P_DATASET_CREATE)`. -/
  dcplId : Int
  /-- Result of `H5Zfilter_avail(H5Z_FILTER_LZ4)`. -/
  lz4Avail : Int
  /-- Result of `H5Dcreate`. -/
  dstDsetId : Int
  /-- Result of `H5Tget_size`. -/
  elementSize : Nat
  /-- Whether `malloc` returned a buffer. -/
  bufferOk : Bool
  /-- Result of `H5Dread`. -/
  readStatus : Int
  /-- Result of `H5Dwrite`. -/
  writeStatus : Int
  /-- Result of `H5Dget_storage_size` on the destination dataset. -/
  storageSize : Nat

/-- The fields of `ProcessData` the callback reads and writes (the two container
handles are fixed for the trial and carry no state of their own here). -/
structure ProcessData where
  filter_id : Int
  filter_params : List Nat
  compressed_size : Nat
  original_size : Nat
  created_groups : List String
deriving DecidableEq

/-- Observable effects of the callback on the library, recorded in call order
(newest first). -/
structure Effects where
  /-- Resource acquisitions and releases. -/
  handles : List HandleEv
  /-- Every `H5Ocopy` call: the path and whether it succeeded. -/
  copies : List (String × Bool)
  /-- Objects created in the destination container. -/
  dstObjects : List (String × ObjType)
  /-- Filter-application calls. -/
  filterCalls : List FilterCall
  /-- Every `H5Dwrite` call: the path written. -/
  writes : List String
deriving DecidableEq

/-- State threaded through the walk. -/
structure WalkState where
  data : ProcessData
  fx : Effects
deriving DecidableEq

/-- A library call returned identifier `id`; a non-negative one is a live resource. -/
def acquire (h : Handle) (id : Int) (s : WalkState) : WalkState :=
  if id ≥ 0 then { s with fx := { s.fx with handles := HandleEv.acquire h :: s.fx.handles } }
  else s

/-- The close call for identifier `id`; closing an invalid identifier releases nothing. -/
def release (h : Handle) (id : Int) (s : WalkState) : WalkState :=
  if id ≥ 0 then { s with fx := { s.fx with handles := HandleEv.release h :: s.fx.handles } }
  else s

/-- Insertion into `std::set<std::string>`: no effect when the key is present. -/
def setInsert (p : String) (g : List String) : List String :=
  if p ∈ g then g else p :: g

/-- The loop over the members of the freshly copied destination group: a member whose
name and info queries succeed and that is a group is inserted under
`full_path + "/" + child_name`. -/
def registerChildren (full_path : String) : List ChildEnv → List String → List String
  | [], g => g
  | c :: cs, g =>
    if c.nameLen > 0 ∧ c.infoStatus ≥ 0 ∧ c.type = ObjType.group then
      registerChildren full_path cs (setInsert (full_path ++ "/" ++ c.name) g)
    else registerChildren full_path cs g

/-- Destination objects a successful shallow `H5Ocopy` of `full_path` creates: the
group and its immediate members. -/
def copiedObjects (full_path : String) (children : List ChildEnv) : List (String × ObjType) :=
  (full_path, ObjType.group) :: children.map (fun c => (full_path ++ "/" ++ c.name, c.type))

/-- The `H5O_TYPE_GROUP` branch of `process_callback`. -/
def groupStep (v : VisitEnv) (s : WalkState) : WalkState :=
  if v.name ∈ s.data.created_groups then s
  else
    if v.ocpyplId < 0 then s
    else
      let s := acquire Handle.ocpypl v.ocpyplId s
      let s := { s with fx := { s.fx with copies := (v.name, decide (v.copyStatus ≥ 0)) :: s.fx.copies } }
      let s := release Handle.ocpypl v.ocpyplId s
      if v.copyStatus < 0 then s
      else
        let s := { s with fx := { s.fx with dstObjects := copiedObjects v.name v.children ++ s.fx.dstObjects } }
        let fresh := decide (v.name ∉ s.data.created_groups)
        let s := { s with data := { s.data with created_groups := setInsert v.name s.data.created_groups } }
        if fresh then
          if v.dstGroupId ≥ 0 then
            let s := acquire Handle.dstGroup v.dstGroupId s
            let s :=
              if v.numStatus ≥ 0 ∧ v.children.length > 0 then
                { s with data := { s.data with
                    created_groups := registerChildren v.name v.children s.data.created_groups } }
              else s
            release Handle.dstGroup v.dstGroupId s
          else s
        else s

/-- The selection predicate `full_path.find(pat) != npos` on character lists. -/
def hasInfix (pat : List Char) : List Char → Bool
  | [] => pat.isEmpty
  | c :: cs => pat.isPrefixOf (c :: cs) || hasInfix pat cs

/-- The flag `is_target_dataset`: the path contains `"/Raw/Signal"`. -/
def isTargetDataset (full_path : String) : Bool :=
  hasInfix "/Raw/Signal".data full_path.data

/-- The loop `for (i = 0; i < rank; ++i) total_elements *= dims[i]`. -/
def totalElements (rank : Int) (dims : Nat → Nat) : Nat :=
  (List.range rank.toNat).foldl (fun acc i => acc * dims i) 1

/-- The filter-application chain of the dataset branch: which call is made on the
creation property list, or `none` when the LZ4 branch finds the filter unavailable
(`H5Zfilter_avail` returned 0) and leaves the callback with `return -1`. -/
def applyFilter (filter_id : Int) (filter_params : List Nat) (lz4Avail : Int) :
    Option FilterCall :=
  if filter_id = H5Z_FILTER_SZIP then
    if filter_params.length ≥ 2 then
      some (FilterCall.szip (filter_params.getD 0 0) (filter_params.getD 1 0))
    else some (FilterCall.szip 4 32)
  else if filter_id = H5Z_FILTER_SHUFFLE then some FilterCall.shuffle
  else if filter_id = H5Z_FILTER_DEFLATE then
    if filter_params.length ≥ 1 then some (FilterCall.deflate (filter_params.getD 0 0))
    else some (FilterCall.deflate 6)
  else if filter_id = H5Z_FILTER_LZ4 then
    if lz4Avail ≠ 0 then some (FilterCall.generic filter_id true [64])
    else none
  else some (FilterCall.generic filter_id false filter_params)

/-- The part of the dataset branch after the filter has been applied: destination
creation, byte accounting, transfer, and the final clean-up. -/
def transferStep (v : VisitEnv) (s : WalkState) : Int × WalkState :=
  if v.dstDsetId < 0 then
    let s := release Handle.dcpl v.dcplId s
    let s := release Handle.srcType v.srcTypeId s
    let s := release Handle.srcSpace v.srcSpaceId s
    let s := release Handle.srcDset v.srcDsetId s
    (0, s)
  else
    let s := acquire Handle.dstDset v.dstDsetId s
    let s := { s with fx := { s.fx with dstObjects := (v.name, ObjType.dataset) :: s.fx.dstObjects } }
    let data_size := v.elementSize * totalElements v.rank v.dims
    let s := { s with data := { s.data with original_size := s.data.original_size + data_size } }
    let s := acquire Handle.buffer (if v.bufferOk then 0 else -1) s
    let s :=
      if v.readStatus ≥ 0 then { s with fx := { s.fx with writes := v.name :: s.fx.writes } }
      else s
    let s :=
      if v.storageSize > 0 then
        { s with data := { s.data with compressed_size := s.data.compressed_size + v.storageSize } }
      else s
    let s := release Handle.buffer (if v.bufferOk then 0 else -1) s
    let s := release Handle.dstDset v.dstDsetId s
    let s := release Handle.dcpl v.dcplId s
    let s := release Handle.srcType v.srcTypeId s
    let s := release Handle.srcSpace v.srcSpaceId s
    let s := release Handle.srcDset v.srcDsetId s
    let s := release Handle.srcDcpl v.srcDcplId s
    (0, s)

/-- The `H5O_TYPE_DATASET` branch of `process_callback`, with its return value. -/
def datasetStep (v : VisitEnv) (s : WalkState) : Int × WalkState :=
  if isTargetDataset v.name then
    if v.srcDsetId < 0 then (0, s)
    else
      let s := acquire Handle.srcDset v.srcDsetId s
      if v.srcDcplId < 0 then (0, release Handle.srcDset v.srcDsetId s)
      else
        let s := acquire Handle.srcDcpl v.srcDcplId s
        let s := acquire Handle.srcType v.srcTypeId s
        let s := acquire Handle.srcSpace v.srcSpaceId s
        if v.dcplId < 0 then
          let s := release Handle.srcType v.srcTypeId s
          let s := release Handle.srcSpace v.srcSpaceId s
          let s := release Handle.srcDset v.srcDsetId s
          (0, s)
        else
          let s := acquire Handle.dcpl v.dcplId s
          match applyFilter s.data.filter_id s.data.filter_params v.lz4Avail with
          | none => (-1, s)
          | some call =>
            let s := { s with fx := { s.fx with filterCalls := call :: s.fx.filterCalls } }
            transferStep v s
  else (0, s)

/-- The callback `process_callback`: the value it returns to `H5Lvisit_by_name`
(`0` continues the traversal) and the state it leaves. -/
def process_callback (v : VisitEnv) (s : WalkState) : Int × WalkState :=
  if v.infoStatus < 0 then (0, s)
  else
    match v.objType with
    | ObjType.group => (0, groupStep v s)
    | ObjType.dataset => datasetStep v s
    | ObjType.other => (0, s)

/-- The traversal `H5Lvisit_by_name`: the callback runs on the links in visiting order
and a non-zero return value ends the traversal with that value. -/
def walk : List VisitEnv → WalkState → Int × WalkState
  | [], s => (0, s)
  | v :: vs, s =>
    let r := process_callback v s
    if r.1 ≠ 0 then r else walk vs r.2

/-- No effect recorded yet. -/
def Effects.none : Effects :=
  { handles := [], copies := [], dstObjects := [], filterCalls := [], writes := [] }

/-- The `process_data` a trial starts with: zero totals and an empty group set. -/
def initState (filter_id : Int) (filter_params : List Nat) : WalkState :=
  { data := { filter_id := filter_id, filter_params := filter_params,
              compressed_size := 0, original_size := 0, created_groups := [] },
    fx := Effects.none }

/-! ## Run executor (`HDF5Processor::testCompression`) -/

/-- The record `CompressionResult` of `hdf5_processor.hpp`. -/
structure CompressionResult where
  filter_name : String
  parameters : String
  compression_level : Int
  compression_ratio : ℚ
  compression_time_ms : Int
  decompression_time_ms : Int
  compressed_size_bytes : Nat
  original_size_bytes : Nat
deriving DecidableEq

/-- A call that opens or creates a container file. -/
inductive FileCall where
  | fopen (path : String)
  | fcreate (path : String)
deriving DecidableEq, Repr

/-- Everything one call of `testCompression` obtains from outside: the file system, the
library, and the clock. -/
structure TrialEnv where
  /-- Result of `Utils::fileExists(input_file)`. -/
  fileExists : Bool
  /-- Result of `Utils::removeExtension(Utils::getBaseName(input_file))`. -/
  stem : String
  /-- Result of `H5Fopen` on the input file. -/
  srcFileId : Int
  /-- Result of `H5Fcreate` on the output file. -/
  dstFileId : Int
  /-- The links `H5Lvisit_by_name` visits, in order, with the call results of each. -/
  visits : List VisitEnv
  /-- Measured duration of the traversal. -/
  compressMs : Int
  /-- Measured duration of re-opening the output file. -/
  decompressMs : Int

/-- The output file name `testCompression` builds. -/
def outputFilename (stem filter_name : String) (compression_level : Int)
    (output_dir : String) : String :=
  if output_dir = "" then
    stem ++ "_" ++ filter_name ++ "_L" ++ toString compression_level ++ ".h5"
  else
    output_dir ++ "/" ++ stem ++ "_" ++ filter_name ++ "_L" ++ toString compression_level ++ ".h5"

/-- The result `testCompression` starts from: the arguments, ratio 1.0, zero times and
zero byte totals. -/
def initialResult (filter_name parameters : String) (compression_level : Int) :
    CompressionResult :=
  { filter_name := filter_name, parameters := parameters,
    compression_level := compression_level, compression_ratio := 1,
    compression_time_ms := 0, decompression_time_ms := 0,
    compressed_size_bytes := 0, original_size_bytes := 0 }

/-- The ratio step at the end of `testCompression`. -/
def withRatio (r : CompressionResult) : CompressionResult :=
  if r.compressed_size_bytes > 0 ∧ r.original_size_bytes > 0 then
    { r with compression_ratio := (r.original_size_bytes : ℚ) / (r.compressed_size_bytes : ℚ) }
  else r

/-- The method `HDF5Processor::testCompression`: the result it returns, the container
files it opened or created (newest first), and the final walk state when the walk ran. -/
def testCompressionFull (env : TrialEnv) (input_file filter_name parameters : String)
    (compression_level : Int) (output_dir : String) :
    CompressionResult × List FileCall × Option WalkState :=
  let result := initialResult filter_name parameters compression_level
  if ¬ env.fileExists then (result, [], none)
  else
    let filter_id := getFilterIdFromName filter_name
    if filter_id = -1 then (result, [], none)
    else
      let output_filename := outputFilename env.stem filter_name compression_level output_dir
      let filter_params := getDefaultFilterParams filter_id compression_level
      if env.srcFileId < 0 then (result, [FileCall.fopen input_file], none)
      else if env.dstFileId < 0 then
        (result, [FileCall.fcreate output_filename, FileCall.fopen input_file], none)
      else
        let w := walk env.visits (initState filter_id filter_params)
        let result := { result with
          compressed_size_bytes := w.2.data.compressed_size,
          original_size_bytes := w.2.data.original_size }
        let result := { result with compression_time_ms := env.compressMs }
        let result := withRatio result
        let result := { result with decompression_time_ms := env.decompressMs }
        (result,
         [FileCall.fopen output_filename, FileCall.fcreate output_filename,
          FileCall.fopen input_file],
         some w.2)

/-- The value returned by `HDF5Processor::testCompression`. -/
def testCompression (env : TrialEnv) (input_file filter_name parameters : String)
    (compression_level : Int) (output_dir : String) : CompressionResult :=
  (testCompressionFull env input_file filter_name parameters compression_level output_dir).1

/-! ## Sweep orchestrator (`CompressionTester::runTestSuite`) -/

/-- The record `CompressionTester::TestConfig`. -/
structure TestConfig where
  input_file : String
  output_dir : String
  filters_to_test : List String
  test_all_levels : Bool
  include_shuffle : Bool
  verbose : Bool

/-- The map built by `CompressionTester::getFilterLevels`. -/
def getFilterLevels : List (String × List Int) :=
  [("GZIP", [1, 6, 9]), ("SZIP", [1, 6, 9]), ("SHUFFLE", [1, 6, 9]), ("LZ4", [1, 6, 9]),
   ("ZSTD", [1, 6, 9]), ("VBZ", [1, 6, 9]), ("BLOSC", [1, 6, 9]), ("BLOSC2", [1, 6, 9])]

/-- The level list `runTestSuite` picks for one filter name. -/
def levelsFor (test_all_levels : Bool) (filter_name : String) : List Int :=
  match test_all_levels, getFilterLevels.lookup filter_name with
  | true, some levels => levels
  | _, _ => [1, 6, 9]

/-- The method `CompressionTester::testFilterWithLevels`: one `testCompression` call per
level, with empty parameters and output directory `"results"`; `env j` is the
environment of the call for the level at position `j`. -/
def testFilterWithLevels (env : Nat → TrialEnv) (input_file filter_name : String)
    (levels : List Int) : List CompressionResult :=
  levels.enum.map (fun jl => testCompression (env jl.1) input_file filter_name "" jl.2 "results")

/-- Everything `runTestSuite` obtains from outside. -/
structure SuiteEnv where
  /-- Result of `Utils::fileExists(config.input_file)`. -/
  fileExists : Bool
  /-- Result of `Utils::getFileSize(config.input_file)`. -/
  fileSize : Nat
  /-- Environment of the trial for filter position `i` and level position `j`. -/
  trial : Nat → Nat → TrialEnv

/-- The baseline entry `runTestSuite` pushes first. -/
def baselineResult (original_size : Nat) : CompressionResult :=
  { filter_name := "None", parameters := "", compression_level := 0,
    compression_ratio := 1, compression_time_ms := 0, decompression_time_ms := 0,
    compressed_size_bytes := original_size, original_size_bytes := original_size }

/-- The method `CompressionTester::runTestSuite`. -/
def runTestSuite (env : SuiteEnv) (config : TestConfig) : List CompressionResult :=
  if ¬ env.fileExists then []
  else
    baselineResult env.fileSize ::
      (config.filters_to_test.enum.map (fun ifn =>
        testFilterWithLevels (env.trial ifn.1) config.input_file ifn.2
          (levelsFor config.test_all_levels ifn.2))).flatten

/-! ## Codec registry (`filter_definitions.cpp`) -/

namespace FilterDefinitions

/-- The record `FilterInfo` of `filter_definitions.hpp`. -/
structure FilterInfo where
  filter_id : Int
  name : String
  description : String
  supported_levels : List Int
  min_params : Nat
  max_params : Nat
  requires_chunking : Bool
deriving DecidableEq, Repr

/-- The list built by `FilterDefinitions::getAllFilters`, in push order. -/
def getAllFilters : List FilterInfo :=
  [ { filter_id := H5Z_FILTER_DEFLATE, name := "GZIP",
      description := "DEFLATE compression algorithm (gzip)",
      supported_levels := [1, 2, 3, 4, 5, 6, 7, 8, 9],
      min_params := 1, max_params := 1, requires_chunking := true },
    { filter_id := H5Z_FILTER_SHUFFLE, name := "SHUFFLE", description := "Byte shuffling filter",
      supported_levels := [], min_params := 0, max_params := 0, requires_chunking := true },
    { filter_id := H5Z_FILTER_FLETCHER32, name := "FLETCHER32",
      description := "Fletcher32 checksum",
      supported_levels := [], min_params := 0, max_params := 0, requires_chunking := false },
    { filter_id := H5Z_FILTER_SZIP, name := "SZIP", description := "NASA's lossless compression",
      supported_levels := [4, 8, 32], min_params := 2, max_params := 2,
      requires_chunking := true },
    { filter_id := H5Z_FILTER_NBIT, name := "NBIT", description := "N-bit compression",
      supported_levels := [], min_params := 0, max_params := 0, requires_chunking := false },
    { filter_id := H5Z_FILTER_SCALEOFFSET, name := "SCALEOFFSET",
      description := "Scale-offset compression",
      supported_levels := [], min_params := 0, max_params := 0, requires_chunking := false },
    { filter_id := H5Z_FILTER_BITGROOM, name := "BITGROOM",
      description := "BitGrooming for floating-point data",
      supported_levels := [1, 2, 3], min_params := 1, max_params := 1,
      requires_chunking := true },
    { filter_id := H5Z_FILTER_BLOSC, name := "BLOSC", description := "Blosc meta-compressor",
      supported_levels := [0, 1, 2, 3, 4, 5, 6, 7, 8, 9], min_params := 4, max_params := 4,
      requires_chunking := true },
    { filter_id := H5Z_FILTER_BLOSC2, name := "BLOSC2", description := "Blosc2 meta-compressor",
      supported_levels := [0, 1, 2, 3, 4, 5, 6, 7, 8, 9], min_params := 4, max_params := 4,
      requires_chunking := true },
    { filter_id := H5Z_FILTER_BSHUF, name := "BSHUF", description := "Bitshuffle filter",
      supported_levels := [0, 1, 2], min_params := 1, max_params := 1,
      requires_chunking := true },
    { filter_id := H5Z_FILTER_BZIP2, name := "BZIP2", description := "Bzip2 compression",
      supported_levels := [1, 2, 3, 4, 5, 6, 7, 8, 9], min_params := 1, max_params := 1,
      requires_chunking := true },
    { filter_id := H5Z_FILTER_GRANULARBR, name := "GRANULARBR",
      description := "Granular Bit Rounding",
      supported_levels := [1, 2, 3], min_params := 1, max_params := 1,
      requires_chunking := true },
    { filter_id := H5Z_FILTER_LZ4, name := "LZ4", description := "LZ4 fast compression",
      supported_levels := [1, 2, 3, 4, 5, 6, 7, 8, 9], min_params := 1, max_params := 1,
      requires_chunking := true },
    { filter_id := H5Z_FILTER_LZF, name := "LZF", description := "LZF compression",
      supported_levels := [1, 2, 3], min_params := 1, max_params := 1,
      requires_chunking := true },
    { filter_id := H5Z_FILTER_ZFP, name := "ZFP",
      description := "ZFP floating-point compression",
      supported_levels := [1, 2, 3, 4], min_params := 4, max_params := 4,
      requires_chunking := true },
    { filter_id := H5Z_FILTER_ZSTD, name := "ZSTD", description := "Zstandard compression",
      supported_levels := [1, 2, 3, 4, 5, 6, 7, 8, 9, 10, 11, 12, 13, 14, 15, 16, 17, 18, 19],
      min_params := 1, max_params := 1, requires_chunking := true },
    { filter_id := H5Z_FILTER_VBZ, name := "VBZ",
      description := "Nanopore VBZ compression for signal data",
      supported_levels := [1], min_params := 4, max_params := 4, requires_chunking := true } ]

/-- The overload `FilterDefinitions::getFilterInfo(const std::string&)`: the first entry
with that name, else the unknown-filter record carrying the queried name. -/
def getFilterInfo (filter_name : String) : FilterInfo :=
  match getAllFilters.find? (fun f => decide (f.name = filter_name)) with
  | some f => f
  | none =>
    { filter_id := -1, name := filter_name, description := "Unknown filter",
      supported_levels := [], min_params := 0, max_params := 0, requires_chunking := false }

/-- The overload `FilterDefinitions::getFilterInfo(int)`: the first entry with that
identifier, else the unknown-filter record carrying the queried identifier and the name
`UNKNOWN`. -/
def getFilterInfoById (filter_id : Int) : FilterInfo :=
  match getAllFilters.find? (fun f => decide (f.filter_id = filter_id)) with
  | some f => f
  | none =>
    { filter_id := filter_id, name := "UNKNOWN", description := "Unknown filter",
      supported_levels := [], min_params := 0, max_params := 0, requires_chunking := false }

/-- The public `FilterDefinitions::getDefaultFilterParams(filter_id, compression_level)`
of `filter_definitions.cpp`. -/
def getDefaultFilterParams (filter_id compression_level : Int) : List Nat :=
  if filter_id = H5Z_FILTER_DEFLATE then
    [toUInt32 (if compression_level > 0 then compression_level else 6)]
  else if filter_id = H5Z_FILTER_BZIP2 then
    [toUInt32 (if compression_level > 0 then compression_level else 2)]
  else if filter_id = H5Z_FILTER_LZ4 then [65536]
  else if filter_id = H5Z_FILTER_ZSTD then
    [toUInt32 (if compression_level > 0 then compression_level else 3)]
  else if filter_id = H5Z_FILTER_BLOSC then
    [toUInt32 (if compression_level > 0 then compression_level else 5), 1, 0, 4]
  else if filter_id = H5Z_FILTER_BLOSC2 then
    [toUInt32 (if compression_level > 0 then compression_level else 5), 1, 0, 4]
  else if filter_id = H5Z_FILTER_SZIP then [4, 32]
  else if filter_id = H5Z_FILTER_ZFP then [32, 0, 0, 0]
  else if filter_id = H5Z_FILTER_VBZ then
    [1, 2, 1, toUInt32 (if compression_level > 0 then compression_level else 3)]
  else if compression_level > 0 then [toUInt32 compression_level]
  else []

/-- The constant `FilterDefinitions::SUPPORTED_FILTERS` of `filter_definitions.hpp`. -/
def SUPPORTED_FILTERS : List String :=
  ["GZIP", "SHUFFLE", "FLETCHER32", "SZIP", "NBIT", "SCALEOFFSET", "BITGROOM", "BLOSC",
   "BLOSC2", "BSHUF", "BZIP2", "GRANULARBR", "LZ4", "LZF", "ZFP", "ZSTD", "VBZ"]

end FilterDefinitions

/-! ## Report analysis (`CompressionTester::generateMarkdownReport`) -/

/-- The loop of `std::max_element` after its first element: `largest` moves to a later
element only when the comparison `comp(*largest, *it)` holds.  `i` is the index of the
element under the iterator, `b` and `bi` are the current largest element and its index. -/
def maxElementLoop {α : Type} (comp : α → α → Bool) : List α → Nat → α → Nat → Nat
  | [], _, _, bi => bi
  | x :: xs, i, b, bi =>
    if comp b x then maxElementLoop comp xs (i + 1) x i
    else maxElementLoop comp xs (i + 1) b bi

/-- The algorithm `std::max_element(first, last, comp)` as the index of the element it
returns; `none` stands for the end iterator of an empty range. -/
def max_element {α : Type} (comp : α → α → Bool) : List α → Option Nat
  | [] => none
  | x :: xs => some (maxElementLoop comp xs 1 x 0)

/-- The loop of `std::min_element` after its first element: `smallest` moves to a later
element only when the comparison `comp(*it, *smallest)` holds. -/
def minElementLoop {α : Type} (comp : α → α → Bool) : List α → Nat → α → Nat → Nat
  | [], _, _, bi => bi
  | x :: xs, i, b, bi =>
    if comp x b then minElementLoop comp xs (i + 1) x i
    else minElementLoop comp xs (i + 1) b bi

/-- The algorithm `std::min_element(first, last, comp)` as the index of the element it
returns. -/
def min_element {α : Type} (comp : α → α → Bool) : List α → Option Nat
  | [] => none
  | x :: xs => some (minElementLoop comp xs 1 x 0)

/-- The comparison of the first `max_element` call: by `compression_ratio`. -/
def ratioLess (a b : CompressionResult) : Bool :=
  decide (a.compression_ratio < b.compression_ratio)

/-- The comparison of the `min_element` call: by `compression_time_ms`. -/
def timeLess (a b : CompressionResult) : Bool :=
  decide (a.compression_time_ms < b.compression_time_ms)

/-- The score `compression_ratio / (compression_time_ms + 1.0)`. -/
def balanceScore (a : CompressionResult) : ℚ :=
  a.compression_ratio / ((a.compression_time_ms : ℚ) + 1)

/-- The comparison of the second `max_element` call: by balance score. -/
def balanceLess (a b : CompressionResult) : Bool :=
  decide (balanceScore a < balanceScore b)

/-- The three results `generateMarkdownReport` highlights, as indices into `results`:
the iterators `max_ratio`, `min_time` and `best_balance`. -/
structure Highlights where
  max_ratio : Nat
  min_time : Nat
  best_balance : Nat
deriving DecidableEq, Repr

/-- The analysis part of `generateMarkdownReport`: the three selections over the whole
range `results.begin() .. results.end()`; `none` when `results` is empty. -/
def reportHighlights (results : List CompressionResult) : Option Highlights :=
  match max_element ratioLess results, min_element timeLess results,
      max_element balanceLess results with
  | some a, some b, some c => some { max_ratio := a, min_time := b, best_balance := c }
  | _, _, _ => none

/-! ## Input selection (`Utils::listFiles` and `runTests` of `main.cpp`) -/

/-- One entry the directory iterator yields: its path as a string, its file name, and
whether it is a regular file. -/
structure DirEntry where
  path : String
  filename : String
  isRegularFile : Bool
deriving DecidableEq, Repr

/-- The method `Utils::listFiles`, on the entries the directory iterator yields: a regular
file is kept when the pattern is exactly `*` or the pattern occurs in the file name as a
substring (`filename.find(pattern) != npos`). -/
def listFiles (directory : List DirEntry) (pattern : String) : List String :=
  (directory.filter (fun entry =>
    entry.isRegularFile && (decide (pattern = "*") || hasInfix pattern.data entry.filename.data))).map
    (fun entry => entry.path)

/-- The input file `runTests` ends up with: the `--input` value when given, else the first
file of `Utils::listFiles(".", "*.h5")`, else `test_data.h5`. -/
def chooseInputFile (input_file : String) (workingDir : List DirEntry) : String :=
  if input_file = "" then
    match listFiles workingDir "*.h5" with
    | f :: _ => f
    | [] => "test_data.h5"
  else input_file

/-! ## Sample inputs -/

/-- A visited link for which every library call succeeds: the destination group has the
given members, the dataset has rank 1 with `n` elements of 2 bytes and the destination
stores `stored` bytes. -/
def okVisit (name : String) (objType : ObjType) (children : List ChildEnv) (n stored : Nat) :
    VisitEnv :=
  { name := name, infoStatus := 0, objType := objType, ocpyplId := 1, copyStatus := 0,
    dstGroupId := 2, numStatus := 0, children := children, srcDsetId := 3, srcDcplId := 4,
    srcTypeId := 5, srcSpaceId := 6, rank := 1, dims := fun _ => n, dcplId := 7,
    lz4Avail := 1, dstDsetId := 8, elementSize := 2, bufferOk := true, readStatus := 0,
    writeStatus := 0, storageSize := stored }

/-- A destination group member that is reported without error. -/
def okChild (name : String) (type : ObjType) : ChildEnv :=
  { name := name, nameLen := name.length, infoStatus := 0, type := type }

/-- Number of acquisitions minus number of releases of `h` in a handle log. -/
def openCount (h : Handle) (log : List HandleEv) : Int :=
  (log.count (HandleEv.acquire h) : Int) - (log.count (HandleEv.release h) : Int)

/-- The paths whose `H5Ocopy` call succeeded, in reverse call order. -/
def successfulCopies (s : WalkState) : List String :=
  (s.fx.copies.filter (fun c => c.2)).map Prod.fst

/-- The ratio rule of the result record: the quotient of the byte totals when both are
positive, 1.0 otherwise. -/
def RatioRule (r : CompressionResult) : Prop :=
  r.compression_ratio =
    if r.compressed_size_bytes > 0 ∧ r.original_size_bytes > 0 then
      (r.original_size_bytes : ℚ) / (r.compressed_size_bytes : ℚ)
    else 1

/-- A trial environment in which the input exists and both containers open, with the
given visits. -/
def okTrial (visits : List VisitEnv) : TrialEnv :=
  { fileExists := true, stem := "reads", srcFileId := 1, dstFileId := 2, visits := visits,
    compressMs := 12, decompressMs := 1 }

/-- A suite environment whose input exists, has 4096 bytes, and whose every trial sees one
matching dataset of 1000 two-byte elements stored in 100 bytes. -/
def okSuite : SuiteEnv :=
  { fileExists := true, fileSize := 4096,
    trial := fun _ _ => okTrial [okVisit "read_0/Raw/Signal" ObjType.dataset [] 1000 100] }

/-- The paths of the groups present in the destination container. -/
def dstGroupPaths (s : WalkState) : List String :=
  (s.fx.dstObjects.filter (fun o => decide (o.2 = ObjType.group))).map Prod.fst

/-! ## Predicates used in the statements -/

/-- The exact condition under which the dataset branch reaches the LZ4 availability check
and finds the filter unavailable. -/
def lz4Abort (v : VisitEnv) (s : WalkState) : Prop :=
  v.infoStatus ≥ 0 ∧ v.objType = ObjType.dataset ∧ isTargetDataset v.name = true ∧
  v.srcDsetId ≥ 0 ∧ v.srcDcplId ≥ 0 ∧ v.dcplId ≥ 0 ∧
  s.data.filter_id = H5Z_FILTER_LZ4 ∧ v.lz4Avail = 0

instance (v : VisitEnv) (s : WalkState) : Decidable (lz4Abort v s) := by
  unfold lz4Abort; exact inferInstance

/-- The members `registerChildren` inserts: reported without error and of kind group. -/
def registered (c : ChildEnv) : Prop :=
  c.nameLen > 0 ∧ c.infoStatus ≥ 0 ∧ c.type = ObjType.group

/-- The dataset branch reaches `H5Dcreate` and the call succeeds: the object is a matching
dataset, its source dataset and both property lists were obtained, the filter chain did
not abort, and the destination dataset was created. -/
def datasetCreated (v : VisitEnv) (s : WalkState) : Prop :=
  isTargetDataset v.name = true ∧ v.srcDsetId ≥ 0 ∧ v.srcDcplId ≥ 0 ∧ v.dcplId ≥ 0 ∧
  ¬ (s.data.filter_id = H5Z_FILTER_LZ4 ∧ v.lz4Avail = 0) ∧ v.dstDsetId ≥ 0

instance (v : VisitEnv) (s : WalkState) : Decidable (datasetCreated v s) := by
  unfold datasetCreated; exact inferInstance

/-- The invariant of the walk: the successfully copied paths are pairwise distinct, each
is in the materialized set, and the set has no duplicate entry. -/
def CopyInv (s : WalkState) : Prop :=
  (successfulCopies s).Nodup ∧ (∀ p ∈ successfulCopies s, p ∈ s.data.created_groups) ∧
  s.data.created_groups.Nodup

/-- The per-visit assumptions of the groups-only mirror: the object is a group whose info
query, property-list creation and copy succeed, it is a source group, and every group
member the copy created in the destination is a source group. -/
def GroupVisitOk (names : List String) (v : VisitEnv) : Prop :=
  v.infoStatus ≥ 0 ∧ v.objType = ObjType.group ∧ v.ocpyplId ≥ 0 ∧ v.copyStatus ≥ 0 ∧
  v.name ∈ names ∧
  ∀ c ∈ v.children, c.type = ObjType.group → v.name ++ "/" ++ c.name ∈ names

/-- The invariant of the groups-only mirror. -/
def MirrorInv (names : List String) (s : WalkState) : Prop :=
  (∀ p ∈ s.data.created_groups, (p, ObjType.group) ∈ s.fx.dstObjects) ∧
  (∀ p, (p, ObjType.group) ∈ s.fx.dstObjects → p ∈ names) ∧
  s.data.original_size = 0 ∧ s.data.compressed_size = 0

/-- Position `i` of `l` holds the first greatest element under `key`: no element has a
greater key and every earlier element has a smaller key. -/
def IsFirstMax {α β : Type} [LinearOrder β] (key : α → β) (l : List α) (i : Nat) : Prop :=
  ∃ y, l[i]? = some y ∧ (∀ (j : Nat) x, l[j]? = some x → key x ≤ key y) ∧
    (∀ (j : Nat) x, j < i → l[j]? = some x → key x < key y)

/-- Position `i` of `l` holds the first least element under `key`: no element has a
smaller key and every earlier element has a greater key. -/
def IsFirstMin {α β : Type} [LinearOrder β] (key : α → β) (l : List α) (i : Nat) : Prop :=
  ∃ y, l[i]? = some y ∧ (∀ (j : Nat) x, l[j]? = some x → key y ≤ key x) ∧
    (∀ (j : Nat) x, j < i → l[j]? = some x → key y < key x)

/-- The members of a destination group that the child loop registers, as paths. -/
def registeredChildPaths (full_path : String) (children : List ChildEnv) : List String :=
  (children.filter (fun c =>
    decide (c.nameLen > 0 ∧ c.infoStatus ≥ 0 ∧ c.type = ObjType.group))).map
    (fun c => full_path ++ "/" ++ c.name)

/-- The length of the vector the run executor derives for the entry and the level lies
between the registered minimum and maximum parameter counts of the entry. -/
def ParamCountOk (f : FilterDefinitions.FilterInfo) (level : Int) : Prop :=
  f.min_params ≤ (getDefaultFilterParams f.filter_id level).length ∧
  (getDefaultFilterParams f.filter_id level).length ≤ f.max_params

instance (f : FilterDefinitions.FilterInfo) (level : Int) : Decidable (ParamCountOk f level) := by
  unfold ParamCountOk; exact inferInstance

/-- The public deriver of `filter_definitions.cpp` and the deriver `testCompression` uses
return the same vector for the entry and the level. -/
def DeriversAgree (f : FilterDefinitions.FilterInfo) (level : Int) : Prop :=
  FilterDefinitions.getDefaultFilterParams f.filter_id level =
    getDefaultFilterParams f.filter_id level

instance (f : FilterDefinitions.FilterInfo) (level : Int) : Decidable (DeriversAgree f level) := by
  unfold DeriversAgree; exact inferInstance

/-- The dataset step gets as far as the filter application: the object is a matching
dataset and its source dataset and both property lists were obtained. -/
def filterReached (v : VisitEnv) : Prop :=
  isTargetDataset v.name = true ∧ v.srcDsetId ≥ 0 ∧ v.srcDcplId ≥ 0 ∧ v.dcplId ≥ 0

instance (v : VisitEnv) : Decidable (filterReached v) := by
  unfold filterReached; exact inferInstance

/-! ## Properties of the parameter deriver -/

theorem wrapInt32_of_range (x : Int) (h : IsInt32 x) : wrapInt32 x = x := by
  unfold IsInt32 at h
  unfold wrapInt32
  omega

theorem toUInt32_of_nonneg (x : Int) (h0 : 0 ≤ x) (h1 : x < 4294967296) :
    toUInt32 x = x.toNat := by
  unfold toUInt32
  rw [Int.emod_eq_of_lt h0 h1]

/-- The ZSTD case where the `int` product does not overflow: the derived vector is `[3]`
for every level `<= 0`, and for every level from 1 to 107374182 it is the one-element
vector holding `floor(level * 20 / 9)` clamped to at most 20, a value never above 20;
level 9 gives `[20]`. -/
theorem zstd_params_clamped (level : Int) :
    (level ≤ 0 → getDefaultFilterParams H5Z_FILTER_ZSTD level = [3]) ∧
    (0 < level → level ≤ 107374182 →
      getDefaultFilterParams H5Z_FILTER_ZSTD level = [(min (level * 20 / 9) 20).toNat] ∧
      (min (level * 20 / 9) 20).toNat ≤ 20) ∧
    getDefaultFilterParams H5Z_FILTER_ZSTD 9 = [20] := by
  refine ⟨?_, ?_, by decide⟩
  · intro h
    simp [getDefaultFilterParams, zstdParams, h, H5Z_FILTER_ZSTD, H5Z_FILTER_DEFLATE,
      H5Z_FILTER_BZIP2, H5Z_FILTER_LZ4]
  · intro h0 h1
    have hw : wrapInt32 (level * 20) = level * 20 :=
      wrapInt32_of_range _ (by unfold IsInt32; omega)
    have hd : Int.tdiv (level * 20) 9 = level * 20 / 9 :=
      Int.tdiv_eq_ediv (by omega) (by omega)
    have hpos : 0 ≤ level * 20 / 9 := Int.ediv_nonneg (by omega) (by omega)
    have hnot : ¬ level ≤ 0 := by omega
    constructor
    · simp only [getDefaultFilterParams, zstdParams, H5Z_FILTER_ZSTD, H5Z_FILTER_DEFLATE,
        H5Z_FILTER_BZIP2, H5Z_FILTER_LZ4, hw, hd, hnot]
      simp only [if_false]
      norm_num
      by_cases hc : 20 < level * 20 / 9
      · rw [if_pos hc, min_eq_right (le_of_lt hc)]
        decide
      · rw [if_neg hc, min_eq_left (not_lt.mp hc)]
        exact toUInt32_of_nonneg _ hpos (by omega)
    · have : min (level * 20 / 9) 20 ≤ 20 := min_le_right _ _
      omega

/-- The witness of `zstd_params_clamped` at level 6. -/
theorem zstd_params_clamped_witness :
    getDefaultFilterParams H5Z_FILTER_ZSTD 6 = [(min ((6 : Int) * 20 / 9) 20).toNat] ∧
    (min ((6 : Int) * 20 / 9) 20).toNat ≤ 20 :=
  (zstd_params_clamped 6).2.1 (by decide) (by decide)

/-- Claim C9 at its failing input: 107374183 is a positive `int` level whose product with
20 overflows the type `int`; the clamp `if (level > 20) level = 20` then sees a negative
value and does not fire, and the vector derived for the level holds 4056358004 instead
of the clamped `floor(level * 20 / 9)`, which is 20. -/
theorem zstd_params_overflow_counterexample :
    IsInt32 107374183 ∧ (0 : Int) < 107374183 ∧
    getDefaultFilterParams H5Z_FILTER_ZSTD 107374183 = [4056358004] ∧
    getDefaultFilterParams H5Z_FILTER_ZSTD 107374183 ≠
      [(min ((107374183 : Int) * 20 / 9) 20).toNat] ∧
    ¬ (4056358004 ≤ 20) := by
  decide

/-- Claim C10: for the LZ4 codec and every `int` level the derived vector has exactly one
element, 65535 when the level is `<= 0` and `floor(4294967295 / level)` when it is
`> 0`. -/
theorem lz4_params (level : Int) (hint : IsInt32 level) :
    (getDefaultFilterParams H5Z_FILTER_LZ4 level).length = 1 ∧
    (level ≤ 0 → getDefaultFilterParams H5Z_FILTER_LZ4 level = [65535]) ∧
    (0 < level → getDefaultFilterParams H5Z_FILTER_LZ4 level = [(4294967295 / level).toNat]) := by
  unfold IsInt32 at hint
  have hdef : getDefaultFilterParams H5Z_FILTER_LZ4 level = lz4Params level := by
    simp [getDefaultFilterParams, H5Z_FILTER_LZ4, H5Z_FILTER_DEFLATE, H5Z_FILTER_BZIP2]
  rw [hdef]
  refine ⟨?_, ?_, ?_⟩
  · unfold lz4Params
    split_ifs <;> rfl
  · intro h
    simp [lz4Params, h]
  · intro h
    have hnot : ¬ level ≤ 0 := by omega
    have hu : toUInt32 level = level.toNat := toUInt32_of_nonneg _ (by omega) (by omega)
    simp only [lz4Params, hnot, if_false, hu]
    congr 1
    have hl : ((level.toNat : Nat) : Int) = level := Int.toNat_of_nonneg (by omega)
    have : ((4294967295 / level.toNat : Nat) : Int) = 4294967295 / level := by
      rw [Int.ofNat_ediv, hl]
      rfl
    have hnn : (0 : Int) ≤ 4294967295 / level := Int.ediv_nonneg (by omega) (by omega)
    omega

/-- The witness of `lz4_params` at level 6. -/
theorem lz4_params_witness :
    (getDefaultFilterParams H5Z_FILTER_LZ4 6).length = 1 ∧
    ((6 : Int) ≤ 0 → getDefaultFilterParams H5Z_FILTER_LZ4 6 = [65535]) ∧
    ((0 : Int) < 6 → getDefaultFilterParams H5Z_FILTER_LZ4 6 = [((4294967295 : Int) / 6).toNat]) :=
  lz4_params 6 (by decide)

/-! ## Basic facts about the walker -/

@[simp] theorem acquire_data (h : Handle) (id : Int) (s : WalkState) :
    (acquire h id s).data = s.data := by
  unfold acquire; split_ifs <;> rfl

@[simp] theorem release_data (h : Handle) (id : Int) (s : WalkState) :
    (release h id s).data = s.data := by
  unfold release; split_ifs <;> rfl

@[simp] theorem acquire_copies (h : Handle) (id : Int) (s : WalkState) :
    (acquire h id s).fx.copies = s.fx.copies := by
  unfold acquire; split_ifs <;> rfl

@[simp] theorem release_copies (h : Handle) (id : Int) (s : WalkState) :
    (release h id s).fx.copies = s.fx.copies := by
  unfold release; split_ifs <;> rfl

@[simp] theorem acquire_dstObjects (h : Handle) (id : Int) (s : WalkState) :
    (acquire h id s).fx.dstObjects = s.fx.dstObjects := by
  unfold acquire; split_ifs <;> rfl

@[simp] theorem release_dstObjects (h : Handle) (id : Int) (s : WalkState) :
    (release h id s).fx.dstObjects = s.fx.dstObjects := by
  unfold release; split_ifs <;> rfl

@[simp] theorem acquire_filterCalls (h : Handle) (id : Int) (s : WalkState) :
    (acquire h id s).fx.filterCalls = s.fx.filterCalls := by
  unfold acquire; split_ifs <;> rfl

@[simp] theorem release_filterCalls (h : Handle) (id : Int) (s : WalkState) :
    (release h id s).fx.filterCalls = s.fx.filterCalls := by
  unfold release; split_ifs <;> rfl

@[simp] theorem acquire_writes (h : Handle) (id : Int) (s : WalkState) :
    (acquire h id s).fx.writes = s.fx.writes := by
  unfold acquire; split_ifs <;> rfl

@[simp] theorem release_writes (h : Handle) (id : Int) (s : WalkState) :
    (release h id s).fx.writes = s.fx.writes := by
  unfold release; split_ifs <;> rfl

theorem transferStep_ret (v : VisitEnv) (s : WalkState) : (transferStep v s).1 = 0 := by
  unfold transferStep; split_ifs <;> rfl

theorem applyFilter_eq_none (fid : Int) (ps : List Nat) (avail : Int) :
    applyFilter fid ps avail = none ↔ fid = H5Z_FILTER_LZ4 ∧ avail = 0 := by
  unfold applyFilter
  constructor
  · intro h
    split_ifs at h with h1 h2 h3 h4 h5 h6 h7
    exact ⟨h6, not_not.mp h7⟩
  · rintro ⟨h1, h2⟩
    subst h1 h2
    simp [H5Z_FILTER_LZ4, H5Z_FILTER_SZIP, H5Z_FILTER_SHUFFLE, H5Z_FILTER_DEFLATE]

theorem datasetStep_ret (v : VisitEnv) (s : WalkState) :
    ((datasetStep v s).1 = 0 ∨ (datasetStep v s).1 = -1) ∧
    ((datasetStep v s).1 = -1 ↔
      (isTargetDataset v.name = true ∧ v.srcDsetId ≥ 0 ∧ v.srcDcplId ≥ 0 ∧ v.dcplId ≥ 0 ∧
        s.data.filter_id = H5Z_FILTER_LZ4 ∧ v.lz4Avail = 0)) := by
  unfold datasetStep
  by_cases ht : isTargetDataset v.name = true
  · by_cases h1 : v.srcDsetId < 0
    · simp [ht, h1]
    · by_cases h2 : v.srcDcplId < 0
      · simp [ht, h1, h2]
      · by_cases h3 : v.dcplId < 0
        · simp [ht, h1, h2, h3]
        · simp only [ht, h1, h2, h3, if_true, if_false, acquire_data]
          cases hf : applyFilter s.data.filter_id s.data.filter_params v.lz4Avail with
          | none =>
            have := (applyFilter_eq_none _ _ _).mp hf
            simp [this.1, this.2]
            omega
          | some call =>
            have hne : ¬ (s.data.filter_id = H5Z_FILTER_LZ4 ∧ v.lz4Avail = 0) := by
              intro h
              rw [(applyFilter_eq_none _ _ _).mpr h] at hf
              exact Option.noConfusion hf
            simp only [transferStep_ret]
            simp
            tauto
  · simp [ht]


theorem mem_setInsert (q p : String) (g : List String) :
    q ∈ setInsert p g ↔ q = p ∨ q ∈ g := by
  unfold setInsert
  split_ifs with h
  · constructor
    · intro hq; exact Or.inr hq
    · rintro (rfl | hq)
      · exact h
      · exact hq
  · simp

theorem setInsert_nodup (p : String) (g : List String) (hg : g.Nodup) :
    (setInsert p g).Nodup := by
  unfold setInsert
  split_ifs with h
  · exact hg
  · exact List.nodup_cons.mpr ⟨h, hg⟩

theorem mem_registerChildren (p q : String) (cs : List ChildEnv) (g : List String) :
    q ∈ registerChildren p cs g ↔
      q ∈ g ∨ ∃ c ∈ cs, registered c ∧ q = p ++ "/" ++ c.name := by
  induction cs generalizing g with
  | nil => simp [registerChildren]
  | cons c cs ih =>
    unfold registerChildren
    split_ifs with h
    · rw [ih, mem_setInsert]
      constructor
      · rintro ((rfl | hq) | ⟨d, hd, hr, rfl⟩)
        · exact Or.inr ⟨c, List.mem_cons_self _ _, h, rfl⟩
        · exact Or.inl hq
        · exact Or.inr ⟨d, List.mem_cons_of_mem _ hd, hr, rfl⟩
      · rintro (hq | ⟨d, hd, hr, rfl⟩)
        · exact Or.inl (Or.inr hq)
        · rcases List.mem_cons.mp hd with rfl | hd
          · exact Or.inl (Or.inl rfl)
          · exact Or.inr ⟨d, hd, hr, rfl⟩
    · rw [ih]
      constructor
      · rintro (hq | ⟨d, hd, hr, rfl⟩)
        · exact Or.inl hq
        · exact Or.inr ⟨d, List.mem_cons_of_mem _ hd, hr, rfl⟩
      · rintro (hq | ⟨d, hd, hr, rfl⟩)
        · exact Or.inl hq
        · rcases List.mem_cons.mp hd with rfl | hd
          · exact absurd hr h
          · exact Or.inr ⟨d, hd, hr, rfl⟩

theorem registerChildren_nodup (p : String) (cs : List ChildEnv) (g : List String)
    (hg : g.Nodup) : (registerChildren p cs g).Nodup := by
  induction cs generalizing g with
  | nil => simpa [registerChildren] using hg
  | cons c cs ih =>
    unfold registerChildren
    split_ifs with h
    · exact ih _ (setInsert_nodup _ _ hg)
    · exact ih _ hg

/-- The group set after the group branch. -/
theorem groupStep_created_groups (v : VisitEnv) (s : WalkState) :
    (groupStep v s).data.created_groups =
      if v.name ∈ s.data.created_groups ∨ v.ocpyplId < 0 ∨ v.copyStatus < 0 then
        s.data.created_groups
      else if v.dstGroupId ≥ 0 ∧ v.numStatus ≥ 0 then
        registerChildren v.name v.children (setInsert v.name s.data.created_groups)
      else setInsert v.name s.data.created_groups := by
  unfold groupStep
  by_cases h1 : v.name ∈ s.data.created_groups
  · simp [h1]
  · by_cases h2 : v.ocpyplId < 0
    · simp [h1, h2]
    · by_cases h3 : v.copyStatus < 0
      · simp [h1, h2, h3]
      · by_cases h4 : v.dstGroupId ≥ 0
        · by_cases h5 : v.numStatus ≥ 0
          · cases hc : v.children with
            | nil => simp [h1, h2, h3, h4, h5, hc, registerChildren]
            | cons c cs => simp [h1, h2, h3, h4, h5, hc]
          · simp [h1, h2, h3, h4, h5]
        · simp [h1, h2, h3, h4]

/-- The group branch leaves the filter and both byte totals alone. -/
theorem groupStep_totals (v : VisitEnv) (s : WalkState) :
    (groupStep v s).data.original_size = s.data.original_size ∧
    (groupStep v s).data.compressed_size = s.data.compressed_size ∧
    (groupStep v s).data.filter_id = s.data.filter_id ∧
    (groupStep v s).data.filter_params = s.data.filter_params := by
  unfold groupStep
  by_cases h1 : v.name ∈ s.data.created_groups
  · simp [h1]
  · by_cases h2 : v.ocpyplId < 0
    · simp [h1, h2]
    · by_cases h3 : v.copyStatus < 0
      · simp [h1, h2, h3]
      · by_cases h4 : v.dstGroupId ≥ 0
        · by_cases h5 : v.numStatus ≥ 0 ∧ v.children.length > 0
          · simp [h1, h2, h3, h4, h5]
          · simp [h1, h2, h3, h4, h5]
        · simp [h1, h2, h3, h4]

/-- The copy log after the group branch. -/
theorem groupStep_copies (v : VisitEnv) (s : WalkState) :
    (groupStep v s).fx.copies =
      if v.name ∈ s.data.created_groups ∨ v.ocpyplId < 0 then s.fx.copies
      else (v.name, decide (v.copyStatus ≥ 0)) :: s.fx.copies := by
  unfold groupStep
  by_cases h1 : v.name ∈ s.data.created_groups
  · simp [h1]
  · by_cases h2 : v.ocpyplId < 0
    · simp [h1, h2]
    · by_cases h3 : v.copyStatus < 0
      · simp [h1, h2, h3]
      · by_cases h4 : v.dstGroupId ≥ 0
        · by_cases h5 : v.numStatus ≥ 0 ∧ v.children.length > 0
          · simp [h1, h2, h3, h4, h5]
          · simp [h1, h2, h3, h4, h5]
        · simp [h1, h2, h3, h4]

/-- The destination objects after the group branch. -/
theorem groupStep_dstObjects (v : VisitEnv) (s : WalkState) :
    (groupStep v s).fx.dstObjects =
      if v.name ∈ s.data.created_groups ∨ v.ocpyplId < 0 ∨ v.copyStatus < 0 then
        s.fx.dstObjects
      else copiedObjects v.name v.children ++ s.fx.dstObjects := by
  unfold groupStep
  by_cases h1 : v.name ∈ s.data.created_groups
  · simp [h1]
  · by_cases h2 : v.ocpyplId < 0
    · simp [h1, h2]
    · by_cases h3 : v.copyStatus < 0
      · simp [h1, h2, h3]
      · by_cases h4 : v.dstGroupId ≥ 0
        · by_cases h5 : v.numStatus ≥ 0 ∧ v.children.length > 0
          · simp [h1, h2, h3, h4, h5]
          · simp [h1, h2, h3, h4, h5]
        · simp [h1, h2, h3, h4]

theorem transferStep_data (v : VisitEnv) (s : WalkState) :
    (transferStep v s).2.data =
      if v.dstDsetId < 0 then s.data
      else { s.data with
        original_size := s.data.original_size + v.elementSize * totalElements v.rank v.dims,
        compressed_size := s.data.compressed_size + v.storageSize } := by
  unfold transferStep
  by_cases h1 : v.dstDsetId < 0
  · simp [h1]
  · by_cases h2 : v.storageSize > 0
    · by_cases h3 : v.readStatus ≥ 0 <;> simp [h1, h2, h3]
    · have h0 : v.storageSize = 0 := by omega
      by_cases h3 : v.readStatus ≥ 0 <;> simp [h1, h3, h0]

theorem transferStep_fx (v : VisitEnv) (s : WalkState) :
    (transferStep v s).2.fx.copies = s.fx.copies ∧
    (transferStep v s).2.fx.filterCalls = s.fx.filterCalls ∧
    (transferStep v s).2.fx.dstObjects =
      (if v.dstDsetId < 0 then s.fx.dstObjects
       else (v.name, ObjType.dataset) :: s.fx.dstObjects) := by
  unfold transferStep
  by_cases h1 : v.dstDsetId < 0
  · simp [h1]
  · by_cases h2 : v.storageSize > 0
    · by_cases h3 : v.readStatus ≥ 0 <;> simp [h1, h2, h3]
    · by_cases h3 : v.readStatus ≥ 0 <;> simp [h1, h2, h3]

theorem datasetStep_of_created (v : VisitEnv) (s : WalkState) (hc : datasetCreated v s) :
    ∃ s1 : WalkState, s1.data = s.data ∧ s1.fx.copies = s.fx.copies ∧
      s1.fx.dstObjects = s.fx.dstObjects ∧ datasetStep v s = transferStep v s1 := by
  obtain ⟨ht, h1, h2, h3, hne, _⟩ := hc
  have h1' : ¬ v.srcDsetId < 0 := not_lt.mpr h1
  have h2' : ¬ v.srcDcplId < 0 := not_lt.mpr h2
  have h3' : ¬ v.dcplId < 0 := not_lt.mpr h3
  unfold datasetStep
  simp only [ht, h1', h2', h3', if_true, if_false, acquire_data]
  cases hf : applyFilter s.data.filter_id s.data.filter_params v.lz4Avail with
  | none => exact absurd ((applyFilter_eq_none _ _ _).mp hf) hne
  | some call => exact ⟨_, by simp, by simp, by simp, rfl⟩

theorem datasetStep_of_not_created (v : VisitEnv) (s : WalkState) (hc : ¬ datasetCreated v s) :
    (datasetStep v s).2.data = s.data ∧ (datasetStep v s).2.fx.copies = s.fx.copies ∧
    (datasetStep v s).2.fx.dstObjects = s.fx.dstObjects := by
  unfold datasetStep
  by_cases ht : isTargetDataset v.name = true
  · by_cases h1 : v.srcDsetId < 0
    · simp [ht, h1]
    · by_cases h2 : v.srcDcplId < 0
      · simp [ht, h1, h2]
      · by_cases h3 : v.dcplId < 0
        · simp [ht, h1, h2, h3]
        · simp only [ht, h1, h2, h3, if_true, if_false, acquire_data]
          cases hf : applyFilter s.data.filter_id s.data.filter_params v.lz4Avail with
          | none => simp
          | some call =>
            have hne : ¬ (s.data.filter_id = H5Z_FILTER_LZ4 ∧ v.lz4Avail = 0) := by
              intro h
              rw [(applyFilter_eq_none _ _ _).mpr h] at hf
              exact Option.noConfusion hf
            have h4 : v.dstDsetId < 0 := by
              by_contra h4
              exact hc ⟨ht, not_lt.mp h1, not_lt.mp h2, not_lt.mp h3, hne, not_lt.mp h4⟩
            simp [transferStep, h4]
  · simp [ht]

/-- The data fields after the dataset branch. -/
theorem datasetStep_data (v : VisitEnv) (s : WalkState) :
    (datasetStep v s).2.data =
      if datasetCreated v s then
        { s.data with
          original_size := s.data.original_size + v.elementSize * totalElements v.rank v.dims,
          compressed_size := s.data.compressed_size + v.storageSize }
      else s.data := by
  by_cases hc : datasetCreated v s
  · obtain ⟨s1, hd, _, _, hs⟩ := datasetStep_of_created v s hc
    have h4 : ¬ v.dstDsetId < 0 := not_lt.mpr hc.2.2.2.2.2
    rw [if_pos hc, hs, transferStep_data, if_neg h4, hd]
  · rw [if_neg hc]
    exact (datasetStep_of_not_created v s hc).1

/-- The copy log and the destination objects after the dataset branch. -/
theorem datasetStep_fx (v : VisitEnv) (s : WalkState) :
    (datasetStep v s).2.fx.copies = s.fx.copies ∧
    (datasetStep v s).2.fx.dstObjects =
      (if datasetCreated v s then (v.name, ObjType.dataset) :: s.fx.dstObjects
       else s.fx.dstObjects) := by
  by_cases hc : datasetCreated v s
  · obtain ⟨s1, _, hcp, hdo, hs⟩ := datasetStep_of_created v s hc
    have h4 : ¬ v.dstDsetId < 0 := not_lt.mpr hc.2.2.2.2.2
    have hx := transferStep_fx v s1
    rw [if_pos hc, hs]
    rw [if_neg h4] at hx
    exact ⟨hx.1.trans hcp, by rw [hx.2.2, hdo]⟩
  · rw [if_neg hc]
    exact (datasetStep_of_not_created v s hc).2

/-! ## Return value of the callback -/

/-- Claim C3, as the code has it: the per-object step returns either the continue code 0
or −1; it returns −1 exactly when the object is a matching dataset whose source dataset,
source property list and destination property list were obtained, the filter is LZ4 and
`H5Zfilter_avail` reports the filter unavailable; for every filter identifier other than
LZ4 it returns 0 whatever the library calls return. -/
theorem process_callback_return (v : VisitEnv) (s : WalkState) :
    ((process_callback v s).1 = 0 ∨ (process_callback v s).1 = -1) ∧
    ((process_callback v s).1 = -1 ↔ lz4Abort v s) ∧
    (s.data.filter_id ≠ H5Z_FILTER_LZ4 → (process_callback v s).1 = 0) := by
  have hd := datasetStep_ret v s
  have key : ((process_callback v s).1 = 0 ∨ (process_callback v s).1 = -1) ∧
      ((process_callback v s).1 = -1 ↔ lz4Abort v s) := by
    unfold process_callback lz4Abort
    by_cases hi : v.infoStatus < 0
    · simp [hi]
    · have hi2 : v.infoStatus ≥ 0 := not_lt.mp hi
      cases ho : v.objType with
      | group => simp [hi]
      | dataset =>
        simp only [hi, if_false]
        refine ⟨hd.1, ?_⟩
        rw [hd.2]
        simp [hi2]
      | other => simp [hi]
  refine ⟨key.1, key.2, ?_⟩
  intro hne
  rcases key.1 with h0 | h1
  · exact h0
  · exact absurd (key.2.mp h1).2.2.2.2.2.2.1 hne

/-- The witness of `process_callback_return`: a matching dataset under the GZIP filter. -/
theorem process_callback_return_witness :
    (process_callback (okVisit "read_0/Raw/Signal" ObjType.dataset [] 1000 100)
      (initState H5Z_FILTER_DEFLATE [6])).1 = 0 :=
  (process_callback_return (okVisit "read_0/Raw/Signal" ObjType.dataset [] 1000 100)
    (initState H5Z_FILTER_DEFLATE [6])).2.2 (by decide)

/-- Claim C3 as stated fails: with the LZ4 filter, a matching dataset for which
`H5Zfilter_avail` returns 0 makes the step return −1, and the traversal ends there: the
group that would be visited next is never copied. -/
theorem lz4_unavailable_stops_walk :
    (process_callback
      { okVisit "read_0/Raw/Signal" ObjType.dataset [] 1000 100 with lz4Avail := 0 }
      (initState H5Z_FILTER_LZ4 [715827882])).1 = -1 ∧
    (walk
      [{ okVisit "read_0/Raw/Signal" ObjType.dataset [] 1000 100 with lz4Avail := 0 },
       okVisit "read_1" ObjType.group [] 0 0]
      (initState H5Z_FILTER_LZ4 [715827882])).1 = -1 ∧
    (walk
      [{ okVisit "read_0/Raw/Signal" ObjType.dataset [] 1000 100 with lz4Avail := 0 },
       okVisit "read_1" ObjType.group [] 0 0]
      (initState H5Z_FILTER_LZ4 [715827882])).2.fx.copies = [] ∧
    (walk [okVisit "read_1" ObjType.group [] 0 0]
      (initState H5Z_FILTER_LZ4 [715827882])).2.fx.copies = [("read_1", true)] := by
  decide


/-! ## Handles of the dataset step -/

/-- Claim C4 at its failing inputs.  For a matching dataset under the GZIP filter, the
step that runs to the end releases every handle it acquired, and so do the steps whose
read or write fails.  When `H5Dcreate` fails, or when `H5Pcreate` fails, the source
creation property list obtained from `H5Dget_create_plist` is acquired and never
released.  Under the LZ4 filter with the filter unavailable, the source dataset, its
creation property list, the datatype, the dataspace and the destination property list
are all left open. -/
theorem dataset_step_handle_leaks :
    (∀ h, openCount h
      (process_callback (okVisit "read_0/Raw/Signal" ObjType.dataset [] 1000 100)
        (initState H5Z_FILTER_DEFLATE [6])).2.fx.handles = 0) ∧
    (∀ h, openCount h
      (process_callback
        { okVisit "read_0/Raw/Signal" ObjType.dataset [] 1000 100 with readStatus := -1 }
        (initState H5Z_FILTER_DEFLATE [6])).2.fx.handles = 0) ∧
    (∀ h, openCount h
      (process_callback
        { okVisit "read_0/Raw/Signal" ObjType.dataset [] 1000 100 with writeStatus := -1 }
        (initState H5Z_FILTER_DEFLATE [6])).2.fx.handles = 0) ∧
    (process_callback
      { okVisit "read_0/Raw/Signal" ObjType.dataset [] 1000 100 with dstDsetId := -1 }
      (initState H5Z_FILTER_DEFLATE [6])).2.fx.handles =
      [HandleEv.release Handle.srcDset, HandleEv.release Handle.srcSpace,
       HandleEv.release Handle.srcType, HandleEv.release Handle.dcpl,
       HandleEv.acquire Handle.dcpl, HandleEv.acquire Handle.srcSpace,
       HandleEv.acquire Handle.srcType, HandleEv.acquire Handle.srcDcpl,
       HandleEv.acquire Handle.srcDset] ∧
    openCount Handle.srcDcpl
      (process_callback
        { okVisit "read_0/Raw/Signal" ObjType.dataset [] 1000 100 with dstDsetId := -1 }
        (initState H5Z_FILTER_DEFLATE [6])).2.fx.handles = 1 ∧
    openCount Handle.srcDcpl
      (process_callback
        { okVisit "read_0/Raw/Signal" ObjType.dataset [] 1000 100 with dcplId := -1 }
        (initState H5Z_FILTER_DEFLATE [6])).2.fx.handles = 1 ∧
    (process_callback
      { okVisit "read_0/Raw/Signal" ObjType.dataset [] 1000 100 with lz4Avail := 0 }
      (initState H5Z_FILTER_LZ4 [715827882])).2.fx.handles =
      [HandleEv.acquire Handle.dcpl, HandleEv.acquire Handle.srcSpace,
       HandleEv.acquire Handle.srcType, HandleEv.acquire Handle.srcDcpl,
       HandleEv.acquire Handle.srcDset] := by
  decide


/-! ## Byte accounting -/

theorem hasInfix_iff (pat s : List Char) : hasInfix pat s = true ↔ pat <:+: s := by
  induction s with
  | nil =>
    cases pat with
    | nil => simp [hasInfix]
    | cons a l => simp [hasInfix]
  | cons c cs ih =>
    unfold hasInfix
    rw [Bool.or_eq_true, ih, List.infix_cons_iff, List.isPrefixOf_iff_prefix]

theorem totalElements_eq_prod (rank : Int) (dims : Nat → Nat) :
    totalElements rank dims = ((List.range rank.toNat).map dims).prod := by
  unfold totalElements
  have key : ∀ (l : List Nat) (a : Nat),
      l.foldl (fun acc i => acc * dims i) a = a * (l.map dims).prod := by
    intro l
    induction l with
    | nil => intro a; simp
    | cons x xs ih => intro a; simp [ih, Nat.mul_assoc]
  rw [key, Nat.one_mul]

/-- The data fields after one callback invocation. -/
theorem process_callback_data (v : VisitEnv) (s : WalkState) :
    (process_callback v s).2.data =
      if v.infoStatus < 0 then s.data
      else match v.objType with
        | ObjType.group => (groupStep v s).data
        | ObjType.dataset => (datasetStep v s).2.data
        | ObjType.other => s.data := by
  unfold process_callback
  split_ifs
  · rfl
  · cases v.objType <;> rfl

theorem process_callback_totals_le (v : VisitEnv) (s : WalkState) :
    s.data.original_size ≤ (process_callback v s).2.data.original_size ∧
    s.data.compressed_size ≤ (process_callback v s).2.data.compressed_size := by
  rw [process_callback_data]
  split_ifs
  · exact ⟨le_refl _, le_refl _⟩
  · cases v.objType with
    | group =>
      have := groupStep_totals v s
      simp only [this.1, this.2.1]
      exact ⟨le_refl _, le_refl _⟩
    | dataset =>
      simp only [datasetStep_data]
      split_ifs
      · exact ⟨Nat.le_add_right _ _, Nat.le_add_right _ _⟩
      · exact ⟨le_refl _, le_refl _⟩
    | other => exact ⟨le_refl _, le_refl _⟩

theorem walk_totals_le (vs : List VisitEnv) (s : WalkState) :
    s.data.original_size ≤ (walk vs s).2.data.original_size ∧
    s.data.compressed_size ≤ (walk vs s).2.data.compressed_size := by
  induction vs generalizing s with
  | nil => exact ⟨le_refl _, le_refl _⟩
  | cons v vs ih =>
    have hstep := process_callback_totals_le v s
    unfold walk
    simp only
    split_ifs
    · exact hstep
    · have := ih (process_callback v s).2
      exact ⟨le_trans hstep.1 this.1, le_trans hstep.2 this.2⟩

/-- Claim C2: the selection flag is true exactly for the paths containing the substring
`/Raw/Signal`; a step on a group, on another object kind, or on a dataset whose path lacks
the substring leaves both byte totals unchanged; a step on a matching dataset whose
destination dataset is created adds element size times the product of the extents to the
original total and the destination storage size to the compressed total; no step and no
walk decreases either total. -/
theorem byte_totals_accounting (v : VisitEnv) (s : WalkState) (vs : List VisitEnv) :
    (isTargetDataset v.name = true ↔ "/Raw/Signal".data <:+: v.name.data) ∧
    ((v.objType ≠ ObjType.dataset ∨ ¬ "/Raw/Signal".data <:+: v.name.data) →
      (process_callback v s).2.data.original_size = s.data.original_size ∧
      (process_callback v s).2.data.compressed_size = s.data.compressed_size) ∧
    (v.infoStatus ≥ 0 → v.objType = ObjType.dataset → datasetCreated v s →
      (process_callback v s).2.data.original_size =
        s.data.original_size + v.elementSize * ((List.range v.rank.toNat).map v.dims).prod ∧
      (process_callback v s).2.data.compressed_size =
        s.data.compressed_size + (if v.storageSize > 0 then v.storageSize else 0)) ∧
    (s.data.original_size ≤ (process_callback v s).2.data.original_size ∧
      s.data.compressed_size ≤ (process_callback v s).2.data.compressed_size) ∧
    (s.data.original_size ≤ (walk vs s).2.data.original_size ∧
      s.data.compressed_size ≤ (walk vs s).2.data.compressed_size) := by
  have hpred : isTargetDataset v.name = true ↔ "/Raw/Signal".data <:+: v.name.data :=
    hasInfix_iff _ _
  refine ⟨hpred, ?_, ?_, process_callback_totals_le v s, walk_totals_le vs s⟩
  · intro h
    rw [process_callback_data]
    split_ifs
    · exact ⟨rfl, rfl⟩
    · cases ho : v.objType with
      | group => exact ⟨(groupStep_totals v s).1, (groupStep_totals v s).2.1⟩
      | dataset =>
        have hnt : ¬ isTargetDataset v.name = true := by
          rcases h with h | h
          · exact absurd ho h
          · exact fun ht => h (hpred.mp ht)
        have hnc : ¬ datasetCreated v s := fun hc => hnt hc.1
        simp only [datasetStep_data, if_neg hnc, and_self]
      | other => exact ⟨rfl, rfl⟩
  · intro hi ho hc
    have hi' : ¬ v.infoStatus < 0 := not_lt.mpr hi
    rw [process_callback_data, if_neg hi', ho]
    simp only [datasetStep_data, if_pos hc, totalElements_eq_prod, true_and]
    split_ifs with hpos
    · rfl
    · have : v.storageSize = 0 := by omega
      simp [this]

/-- The witness of `byte_totals_accounting`: a matching dataset of 1000 two-byte elements
stored in 100 bytes, under the GZIP filter. -/
theorem byte_totals_accounting_witness :
    (process_callback (okVisit "read_0/Raw/Signal" ObjType.dataset [] 1000 100)
      (initState H5Z_FILTER_DEFLATE [6])).2.data.original_size = 0 + 2 * 1000 ∧
    (process_callback (okVisit "read_0/Raw/Signal" ObjType.dataset [] 1000 100)
      (initState H5Z_FILTER_DEFLATE [6])).2.data.compressed_size = 0 + 100 :=
  (byte_totals_accounting (okVisit "read_0/Raw/Signal" ObjType.dataset [] 1000 100)
    (initState H5Z_FILTER_DEFLATE [6]) []).2.2.1 (by decide) (by decide) (by decide)


/-! ## At-most-once group copy -/

theorem process_callback_state (v : VisitEnv) (s : WalkState) :
    (process_callback v s).2 =
      if v.infoStatus < 0 then s
      else match v.objType with
        | ObjType.group => groupStep v s
        | ObjType.dataset => (datasetStep v s).2
        | ObjType.other => s := by
  unfold process_callback
  split_ifs
  · rfl
  · cases v.objType <;> rfl

theorem groupStep_set_facts (v : VisitEnv) (s : WalkState) :
    s.data.created_groups ⊆ (groupStep v s).data.created_groups ∧
    (s.data.created_groups.Nodup → (groupStep v s).data.created_groups.Nodup) ∧
    ((groupStep v s).fx.copies = s.fx.copies ∨
      (v.name ∉ s.data.created_groups ∧
        (groupStep v s).fx.copies = (v.name, decide (v.copyStatus ≥ 0)) :: s.fx.copies ∧
        (v.copyStatus ≥ 0 → v.name ∈ (groupStep v s).data.created_groups))) := by
  rw [groupStep_created_groups, groupStep_copies]
  by_cases h1 : v.name ∈ s.data.created_groups
  · simp [h1]
  · by_cases h2 : v.ocpyplId < 0
    · simp [h1, h2]
    · by_cases h3 : v.copyStatus < 0
      · have h3' : ¬ v.copyStatus ≥ 0 := not_le.mpr h3
        simp [h1, h2, h3]
      · have hc1 : ¬ (v.name ∈ s.data.created_groups ∨ v.ocpyplId < 0 ∨ v.copyStatus < 0) := by
          rintro (h | h | h)
          · exact h1 h
          · exact h2 h
          · exact h3 h
        have hc2 : ¬ (v.name ∈ s.data.created_groups ∨ v.ocpyplId < 0) := by
          rintro (h | h)
          · exact h1 h
          · exact h2 h
        rw [if_neg hc1, if_neg hc2]
        refine ⟨?_, ?_, Or.inr ⟨h1, rfl, fun _ => ?_⟩⟩
        · intro q hq
          split_ifs
          · exact (mem_registerChildren _ _ _ _).mpr (Or.inl ((mem_setInsert _ _ _).mpr (Or.inr hq)))
          · exact (mem_setInsert _ _ _).mpr (Or.inr hq)
        · intro hn
          split_ifs
          · exact registerChildren_nodup _ _ _ (setInsert_nodup _ _ hn)
          · exact setInsert_nodup _ _ hn
        · split_ifs
          · exact (mem_registerChildren _ _ _ _).mpr (Or.inl ((mem_setInsert _ _ _).mpr (Or.inl rfl)))
          · exact (mem_setInsert _ _ _).mpr (Or.inl rfl)

theorem process_callback_set_facts (v : VisitEnv) (s : WalkState) :
    s.data.created_groups ⊆ (process_callback v s).2.data.created_groups ∧
    (s.data.created_groups.Nodup → (process_callback v s).2.data.created_groups.Nodup) ∧
    ((process_callback v s).2.fx.copies = s.fx.copies ∨
      (v.name ∉ s.data.created_groups ∧
        (process_callback v s).2.fx.copies =
          (v.name, decide (v.copyStatus ≥ 0)) :: s.fx.copies ∧
        (v.copyStatus ≥ 0 → v.name ∈ (process_callback v s).2.data.created_groups))) := by
  rw [process_callback_state]
  split_ifs
  · exact ⟨fun _ h => h, fun h => h, Or.inl rfl⟩
  · cases v.objType with
    | group => exact groupStep_set_facts v s
    | dataset =>
      have hd := datasetStep_data v s
      have hf := (datasetStep_fx v s).1
      have hg : (datasetStep v s).2.data.created_groups = s.data.created_groups := by
        rw [hd]; split_ifs <;> rfl
      have key : s.data.created_groups ⊆ (datasetStep v s).2.data.created_groups ∧
          (s.data.created_groups.Nodup → (datasetStep v s).2.data.created_groups.Nodup) ∧
          ((datasetStep v s).2.fx.copies = s.fx.copies ∨
            (v.name ∉ s.data.created_groups ∧
              (datasetStep v s).2.fx.copies =
                (v.name, decide (v.copyStatus ≥ 0)) :: s.fx.copies ∧
              (v.copyStatus ≥ 0 → v.name ∈ (datasetStep v s).2.data.created_groups))) := by
        rw [hg]
        exact ⟨fun _ h => h, fun h => h, Or.inl hf⟩
      exact key
    | other => exact ⟨fun _ h => h, fun h => h, Or.inl rfl⟩

theorem process_callback_copyInv (v : VisitEnv) (s : WalkState) (h : CopyInv s) :
    CopyInv (process_callback v s).2 := by
  obtain ⟨hsub, hnd, hcp⟩ := process_callback_set_facts v s
  obtain ⟨h1, h2, h3⟩ := h
  rcases hcp with hcp | ⟨hnot, hcp, hin⟩
  · refine ⟨?_, ?_, hnd h3⟩
    · unfold successfulCopies; rw [hcp]; exact h1
    · intro p hp
      unfold successfulCopies at hp; rw [hcp] at hp
      exact hsub (h2 p hp)
  · by_cases hok : v.copyStatus ≥ 0
    · have hsc : successfulCopies (process_callback v s).2 = v.name :: successfulCopies s := by
        unfold successfulCopies; rw [hcp]; simp [hok]
      refine ⟨?_, ?_, hnd h3⟩
      · rw [hsc]
        exact List.nodup_cons.mpr ⟨fun hm => hnot (h2 _ hm), h1⟩
      · intro p hp
        rw [hsc] at hp
        rcases List.mem_cons.mp hp with rfl | hp
        · exact hin hok
        · exact hsub (h2 p hp)
    · have hsc : successfulCopies (process_callback v s).2 = successfulCopies s := by
        unfold successfulCopies; rw [hcp]; simp [hok]
      refine ⟨?_, ?_, hnd h3⟩
      · rw [hsc]; exact h1
      · intro p hp
        rw [hsc] at hp
        exact hsub (h2 p hp)

theorem walk_copyInv (vs : List VisitEnv) (s : WalkState) (h : CopyInv s) :
    CopyInv (walk vs s).2 := by
  induction vs generalizing s with
  | nil => exact h
  | cons v vs ih =>
    unfold walk
    simp only
    split_ifs
    · exact process_callback_copyInv v s h
    · exact ih _ (process_callback_copyInv v s h)

/-- Claim C1: in the walk of one trial, over any sequence of visited objects and any
outcomes of the library calls, no group path is successfully copied more than once and
the materialized set holds no duplicate; a step calls `H5Ocopy` only for a path that is
not in the set, and the path is in the set after a successful copy; visiting a group
whose path is already in the set changes nothing at all and returns 0. -/
theorem group_copied_at_most_once (vs : List VisitEnv) (filter_id : Int)
    (filter_params : List Nat) (v : VisitEnv) (s : WalkState) :
    (successfulCopies (walk vs (initState filter_id filter_params)).2).Nodup ∧
    (walk vs (initState filter_id filter_params)).2.data.created_groups.Nodup ∧
    ((process_callback v s).2.fx.copies ≠ s.fx.copies →
      v.name ∉ s.data.created_groups ∧
      (process_callback v s).2.fx.copies =
        (v.name, decide (v.copyStatus ≥ 0)) :: s.fx.copies ∧
      (v.copyStatus ≥ 0 → v.name ∈ (process_callback v s).2.data.created_groups)) ∧
    (v.objType = ObjType.group → v.name ∈ s.data.created_groups →
      process_callback v s = (0, s)) := by
  have hinit : CopyInv (initState filter_id filter_params) := by
    refine ⟨?_, ?_, ?_⟩
    · simp [successfulCopies, initState, Effects.none]
    · intro p hp; simp [successfulCopies, initState, Effects.none] at hp
    · simp [initState]
  have hw := walk_copyInv vs _ hinit
  refine ⟨hw.1, hw.2.2, ?_, ?_⟩
  · intro hne
    rcases (process_callback_set_facts v s).2.2 with h | h
    · exact absurd h hne
    · exact h
  · intro ho hmem
    unfold process_callback
    split_ifs
    · rfl
    · rw [ho]
      simp [groupStep, hmem]

/-- The witness of `group_copied_at_most_once`: the group `read_0` is copied by its
first visit, and a second visit of the same path changes nothing. -/
theorem group_copied_at_most_once_witness :
    process_callback (okVisit "read_0" ObjType.group [] 0 0)
      (process_callback (okVisit "read_0" ObjType.group [] 0 0)
        (initState H5Z_FILTER_DEFLATE [6])).2 =
    (0, (process_callback (okVisit "read_0" ObjType.group [] 0 0)
        (initState H5Z_FILTER_DEFLATE [6])).2) :=
  (group_copied_at_most_once [] 0 [] (okVisit "read_0" ObjType.group [] 0 0)
    (process_callback (okVisit "read_0" ObjType.group [] 0 0)
      (initState H5Z_FILTER_DEFLATE [6])).2).2.2.2 (by decide) (by decide)


/-! ## Run executor and sweep -/

theorem withRatio_rule (r : CompressionResult) (h : r.compression_ratio = 1) :
    RatioRule (withRatio r) := by
  unfold RatioRule withRatio
  split_ifs with hc
  · simp
  · exact h

theorem testCompression_ratio (env : TrialEnv) (input_file filter_name parameters : String)
    (compression_level : Int) (output_dir : String) :
    RatioRule (testCompression env input_file filter_name parameters compression_level
      output_dir) := by
  unfold testCompression testCompressionFull
  have hinit : RatioRule (initialResult filter_name parameters compression_level) := by
    simp [RatioRule, initialResult]
  by_cases h1 : env.fileExists = true
  · by_cases h2 : getFilterIdFromName filter_name = -1
    · simpa [h1, h2] using hinit
    · by_cases h3 : env.srcFileId < 0
      · simpa [h1, h2, h3] using hinit
      · by_cases h4 : env.dstFileId < 0
        · simpa [h1, h2, h3, h4] using hinit
        · simp only [h1, h2, h3, h4, not_true_eq_false, if_false]
          have := withRatio_rule
            { initialResult filter_name parameters compression_level with
              compressed_size_bytes := (walk env.visits (initState (getFilterIdFromName filter_name)
                (getDefaultFilterParams (getFilterIdFromName filter_name) compression_level))).2.data.compressed_size,
              original_size_bytes := (walk env.visits (initState (getFilterIdFromName filter_name)
                (getDefaultFilterParams (getFilterIdFromName filter_name) compression_level))).2.data.original_size,
              compression_time_ms := env.compressMs } (by simp [initialResult])
          unfold RatioRule at this ⊢
          exact this
  · simpa [h1] using hinit

theorem baseline_ratio (n : Nat) : RatioRule (baselineResult n) := by
  unfold RatioRule baselineResult
  simp only
  split_ifs with h
  · have hn : (n : ℚ) ≠ 0 := by
      have : 0 < n := h.1
      exact_mod_cast Nat.pos_iff_ne_zero.mp this
    rw [div_self hn]
  · rfl

/-- Claim C5: the result of every `testCompression` call, and every element of the
sequence `runTestSuite` returns, the baseline included, has `compression_ratio` equal to
`original_size_bytes / compressed_size_bytes` when both totals are positive and equal to
1.0 otherwise. -/
theorem ratio_rule_holds (env : TrialEnv) (input_file filter_name parameters : String)
    (compression_level : Int) (output_dir : String) (senv : SuiteEnv) (config : TestConfig) :
    RatioRule (testCompression env input_file filter_name parameters compression_level
      output_dir) ∧
    ∀ r ∈ runTestSuite senv config, RatioRule r := by
  refine ⟨testCompression_ratio _ _ _ _ _ _, ?_⟩
  intro r hr
  unfold runTestSuite at hr
  by_cases hfe : senv.fileExists = true
  swap
  · simp [hfe] at hr
  · simp only [hfe, not_true_eq_false, if_false] at hr
    rcases List.mem_cons.mp hr with rfl | hr
    · exact baseline_ratio _
    · rw [List.mem_flatten] at hr
      obtain ⟨l, hl, hrl⟩ := hr
      rw [List.mem_map] at hl
      obtain ⟨ifn, _, rfl⟩ := hl
      unfold testFilterWithLevels at hrl
      rw [List.mem_map] at hrl
      obtain ⟨jl, _, rfl⟩ := hrl
      exact testCompression_ratio _ _ _ _ _ _

/-- The witness of `ratio_rule_holds`: the baseline of a sweep over a 4096-byte input. -/
theorem ratio_rule_holds_witness :
    RatioRule (baselineResult 4096) :=
  (ratio_rule_holds (okTrial []) "reads.h5" "GZIP" "" 6 "results" okSuite
    { input_file := "reads.h5", output_dir := "results", filters_to_test := ["GZIP"],
      test_all_levels := true, include_shuffle := true, verbose := false }).2
    (baselineResult 4096) (by simp [runTestSuite, okSuite])

/-- Claim C6: when the input path does not exist, or the filter name resolves to no
identifier (as `"FOO"` does), `testCompression` returns the given filter name, parameters
and level with both byte totals 0, ratio 1.0 and both timings 0, and it opens or creates
no container file and runs no walk. -/
theorem zero_result_on_setup_failure (env : TrialEnv)
    (input_file filter_name parameters : String) (compression_level : Int)
    (output_dir : String)
    (h : env.fileExists = false ∨ getFilterIdFromName filter_name = -1) :
    testCompressionFull env input_file filter_name parameters compression_level output_dir =
      ({ filter_name := filter_name, parameters := parameters,
         compression_level := compression_level, compression_ratio := 1,
         compression_time_ms := 0, decompression_time_ms := 0,
         compressed_size_bytes := 0, original_size_bytes := 0 }, [], none) ∧
    getFilterIdFromName "FOO" = -1 := by
  refine ⟨?_, by decide⟩
  unfold testCompressionFull initialResult
  rcases h with h | h
  · simp [h]
  · by_cases h1 : env.fileExists = true
    · simp [h1, h]
    · simp [h1]

/-- The witness of `zero_result_on_setup_failure`: the unknown filter name `"FOO"` on an
input that exists. -/
theorem zero_result_on_setup_failure_witness :
    testCompressionFull (okTrial []) "reads.h5" "FOO" "" 6 "results" =
      ({ filter_name := "FOO", parameters := "", compression_level := 6,
         compression_ratio := 1, compression_time_ms := 0, decompression_time_ms := 0,
         compressed_size_bytes := 0, original_size_bytes := 0 }, [], none) :=
  (zero_result_on_setup_failure (okTrial []) "reads.h5" "FOO" "" 6 "results"
    (Or.inr (by decide))).1


/-! ## What the walk leaves in the destination -/

/-- Claim C7 at its failing inputs; every library call in them succeeds.  First source: a
group `a` holding a group `b` holding the dataset `a/b/x`, whose path lacks
`/Raw/Signal`.  The shallow copy of `a` creates `a` and the empty member `a/b` and
registers `a/b`; the visit of `a/b` is skipped; the visit of `a/b/x` does nothing; the
walk ends with return value 0 and `a/b/x` is not in the destination.  Second source: a
single dataset `summary` directly under the root; no group copy covers it and the
destination stays empty. -/
theorem nested_dataset_not_mirrored :
    (walk
      [okVisit "a" ObjType.group [okChild "b" ObjType.group] 0 0,
       okVisit "a/b" ObjType.group [okChild "x" ObjType.dataset] 0 0,
       okVisit "a/b/x" ObjType.dataset [] 10 10]
      (initState H5Z_FILTER_DEFLATE [6])).1 = 0 ∧
    (walk
      [okVisit "a" ObjType.group [okChild "b" ObjType.group] 0 0,
       okVisit "a/b" ObjType.group [okChild "x" ObjType.dataset] 0 0,
       okVisit "a/b/x" ObjType.dataset [] 10 10]
      (initState H5Z_FILTER_DEFLATE [6])).2.fx.dstObjects =
      [("a", ObjType.group), ("a/b", ObjType.group)] ∧
    (walk
      [okVisit "a" ObjType.group [okChild "b" ObjType.group] 0 0,
       okVisit "a/b" ObjType.group [okChild "x" ObjType.dataset] 0 0,
       okVisit "a/b/x" ObjType.dataset [] 10 10]
      (initState H5Z_FILTER_DEFLATE [6])).2.fx.copies = [("a", true)] ∧
    isTargetDataset "a/b/x" = false ∧
    (walk [okVisit "summary" ObjType.dataset [] 10 10]
      (initState H5Z_FILTER_DEFLATE [6])) = (0, initState H5Z_FILTER_DEFLATE [6]) := by
  decide


/-! ## Mirroring a container of groups -/

theorem mem_dstGroupPaths (p : String) (s : WalkState) :
    p ∈ dstGroupPaths s ↔ (p, ObjType.group) ∈ s.fx.dstObjects := by
  unfold dstGroupPaths
  simp only [List.mem_map, List.mem_filter, decide_eq_true_eq]
  constructor
  · rintro ⟨⟨q, t⟩, ⟨hm, ht⟩, rfl⟩
    simp only at ht
    subst ht
    exact hm
  · intro h
    exact ⟨(p, ObjType.group), ⟨h, rfl⟩, rfl⟩

theorem mem_copiedObjects_group (p full_path : String) (children : List ChildEnv) :
    (p, ObjType.group) ∈ copiedObjects full_path children ↔
      p = full_path ∨ ∃ c ∈ children, c.type = ObjType.group ∧ p = full_path ++ "/" ++ c.name := by
  unfold copiedObjects
  simp only [List.mem_cons, List.mem_map, Prod.mk.injEq, and_true]
  constructor
  · rintro (h | ⟨c, hc, h1, h2⟩)
    · exact Or.inl h
    · exact Or.inr ⟨c, hc, h2, h1.symm⟩
  · rintro (h | ⟨c, hc, h1, h2⟩)
    · exact Or.inl h
    · exact Or.inr ⟨c, hc, h2.symm, h1⟩

theorem process_callback_of_group (v : VisitEnv) (s : WalkState)
    (hi : v.infoStatus ≥ 0) (ho : v.objType = ObjType.group) :
    process_callback v s = (0, groupStep v s) := by
  unfold process_callback
  rw [if_neg (not_lt.mpr hi), ho]

theorem groupStep_mirrorInv (names : List String) (v : VisitEnv) (s : WalkState)
    (hv : GroupVisitOk names v) (h : MirrorInv names s) :
    MirrorInv names (groupStep v s) ∧ v.name ∈ (groupStep v s).data.created_groups := by
  obtain ⟨_, _, hp, hc, hn, hch⟩ := hv
  obtain ⟨i1, i2, i3, i4⟩ := h
  have ht := groupStep_totals v s
  have hcg := groupStep_created_groups v s
  have hdo := groupStep_dstObjects v s
  by_cases hm : v.name ∈ s.data.created_groups
  · rw [if_pos (Or.inl hm)] at hcg hdo
    refine ⟨⟨?_, ?_, by rw [ht.1, i3], by rw [ht.2.1, i4]⟩, ?_⟩
    · rw [hcg, hdo]; exact i1
    · rw [hdo]; exact i2
    · rw [hcg]; exact hm
  · have hc1 : ¬ (v.name ∈ s.data.created_groups ∨ v.ocpyplId < 0 ∨ v.copyStatus < 0) := by
      rintro (h | h | h)
      · exact hm h
      · omega
      · omega
    rw [if_neg hc1] at hcg hdo
    refine ⟨⟨?_, ?_, by rw [ht.1, i3], by rw [ht.2.1, i4]⟩, ?_⟩
    · rw [hcg, hdo]
      intro p hpm
      rw [List.mem_append, mem_copiedObjects_group]
      have hins : p ∈ setInsert v.name s.data.created_groups →
          (p = v.name ∨
            ∃ c ∈ v.children, c.type = ObjType.group ∧ p = v.name ++ "/" ++ c.name) ∨
            (p, ObjType.group) ∈ s.fx.dstObjects := by
        intro hq
        rcases (mem_setInsert _ _ _).mp hq with rfl | hq
        · exact Or.inl (Or.inl rfl)
        · exact Or.inr (i1 p hq)
      split_ifs at hpm
      · rcases (mem_registerChildren _ _ _ _).mp hpm with hq | ⟨c, hcm, hr, rfl⟩
        · exact hins hq
        · exact Or.inl (Or.inr ⟨c, hcm, hr.2.2, rfl⟩)
      · exact hins hpm
    · rw [hdo]
      intro p hpm
      rw [List.mem_append, mem_copiedObjects_group] at hpm
      rcases hpm with (rfl | ⟨c, hcm, hg, rfl⟩) | hpm
      · exact hn
      · exact hch c hcm hg
      · exact i2 p hpm
    · rw [hcg]
      split_ifs
      · exact (mem_registerChildren _ _ _ _).mpr
          (Or.inl ((mem_setInsert _ _ _).mpr (Or.inl rfl)))
      · exact (mem_setInsert _ _ _).mpr (Or.inl rfl)

theorem walk_created_groups_subset (vs : List VisitEnv) (s : WalkState) :
    s.data.created_groups ⊆ (walk vs s).2.data.created_groups := by
  induction vs generalizing s with
  | nil => exact fun _ h => h
  | cons v vs ih =>
    have hstep := (process_callback_set_facts v s).1
    unfold walk
    simp only
    split_ifs
    · exact hstep
    · exact fun p hp => ih _ (hstep hp)

theorem walk_mirrorInv (names : List String) (vs : List VisitEnv) (s : WalkState)
    (hv : ∀ v ∈ vs, GroupVisitOk names v) (h : MirrorInv names s) :
    (walk vs s).1 = 0 ∧ MirrorInv names (walk vs s).2 ∧
    ∀ v ∈ vs, v.name ∈ (walk vs s).2.data.created_groups := by
  induction vs generalizing s with
  | nil => exact ⟨rfl, h, fun _ hm => absurd hm (List.not_mem_nil _)⟩
  | cons v vs ih =>
    have hv0 := hv v (List.mem_cons_self _ _)
    have hstep := groupStep_mirrorInv names v s hv0 h
    have hpc := process_callback_of_group v s hv0.1 hv0.2.1
    have hrest := ih (groupStep v s) (fun w hw => hv w (List.mem_cons_of_mem _ hw)) hstep.1
    have hw : walk (v :: vs) s = walk vs (groupStep v s) := by
      conv_lhs => unfold walk
      simp [hpc]
    rw [hw]
    refine ⟨hrest.1, hrest.2.1, ?_⟩
    intro w hwm
    rcases List.mem_cons.mp hwm with rfl | hwm
    · exact walk_created_groups_subset vs _ hstep.2
    · exact hrest.2.2 w hwm

/-- Claim C8: for a source container holding only groups, visited as the list `vs`, when
every copy succeeds (and the copies create only members the source has), the walk runs to
the end, the materialized set and the set of group paths of the destination both equal the
set of group paths of the source, and both byte totals are 0. -/
theorem groups_only_mirror (vs : List VisitEnv) (filter_id : Int) (filter_params : List Nat)
    (hv : ∀ v ∈ vs, GroupVisitOk (vs.map (fun w => w.name)) v) :
    (walk vs (initState filter_id filter_params)).1 = 0 ∧
    (∀ p, p ∈ (walk vs (initState filter_id filter_params)).2.data.created_groups ↔
      p ∈ vs.map (fun w => w.name)) ∧
    (∀ p, p ∈ dstGroupPaths (walk vs (initState filter_id filter_params)).2 ↔
      p ∈ vs.map (fun w => w.name)) ∧
    (walk vs (initState filter_id filter_params)).2.data.original_size = 0 ∧
    (walk vs (initState filter_id filter_params)).2.data.compressed_size = 0 := by
  have hinit : MirrorInv (vs.map (fun w => w.name)) (initState filter_id filter_params) := by
    refine ⟨?_, ?_, rfl, rfl⟩
    · intro p hp; simp [initState] at hp
    · intro p hp; simp [initState, Effects.none] at hp
  obtain ⟨hr, ⟨i1, i2, i3, i4⟩, hall⟩ := walk_mirrorInv _ vs _ hv hinit
  have hback : ∀ p, p ∈ vs.map (fun w => w.name) →
      p ∈ (walk vs (initState filter_id filter_params)).2.data.created_groups := by
    intro p hp
    obtain ⟨w, hw, rfl⟩ := List.mem_map.mp hp
    exact hall w hw
  refine ⟨hr, ?_, ?_, i3, i4⟩
  · intro p
    exact ⟨fun hp => i2 p (i1 p hp), hback p⟩
  · intro p
    rw [mem_dstGroupPaths]
    exact ⟨i2 p, fun hp => i1 p (hback p hp)⟩

/-- The witness of `groups_only_mirror`: the groups `a` and `a/b`, the parent first. -/
theorem groups_only_mirror_witness :
    (walk [okVisit "a" ObjType.group [okChild "b" ObjType.group] 0 0,
        okVisit "a/b" ObjType.group [] 0 0] (initState H5Z_FILTER_DEFLATE [6])).1 = 0 ∧
    (∀ p, p ∈ (walk [okVisit "a" ObjType.group [okChild "b" ObjType.group] 0 0,
        okVisit "a/b" ObjType.group [] 0 0]
        (initState H5Z_FILTER_DEFLATE [6])).2.data.created_groups ↔
      p ∈ [okVisit "a" ObjType.group [okChild "b" ObjType.group] 0 0,
        okVisit "a/b" ObjType.group [] 0 0].map (fun w => w.name)) ∧
    (∀ p, p ∈ dstGroupPaths (walk [okVisit "a" ObjType.group [okChild "b" ObjType.group] 0 0,
        okVisit "a/b" ObjType.group [] 0 0] (initState H5Z_FILTER_DEFLATE [6])).2 ↔
      p ∈ [okVisit "a" ObjType.group [okChild "b" ObjType.group] 0 0,
        okVisit "a/b" ObjType.group [] 0 0].map (fun w => w.name)) ∧
    (walk [okVisit "a" ObjType.group [okChild "b" ObjType.group] 0 0,
        okVisit "a/b" ObjType.group [] 0 0]
        (initState H5Z_FILTER_DEFLATE [6])).2.data.original_size = 0 ∧
    (walk [okVisit "a" ObjType.group [okChild "b" ObjType.group] 0 0,
        okVisit "a/b" ObjType.group [] 0 0]
        (initState H5Z_FILTER_DEFLATE [6])).2.data.compressed_size = 0 :=
  groups_only_mirror
    [okVisit "a" ObjType.group [okChild "b" ObjType.group] 0 0,
     okVisit "a/b" ObjType.group [] 0 0] H5Z_FILTER_DEFLATE [6]
    (by
      intro v hv
      simp only [List.mem_cons, List.mem_singleton, List.not_mem_nil, or_false] at hv
      rcases hv with rfl | rfl
      · refine ⟨by decide, rfl, by decide, by decide, by decide, ?_⟩
        intro c hc _
        simp only [okVisit, List.mem_singleton] at hc
        subst hc
        decide
      · refine ⟨by decide, rfl, by decide, by decide, by decide, ?_⟩
        intro c hc _
        simp [okVisit] at hc)

/-! ## The other cases of the parameter deriver -/

theorem toUInt32_of_neg (x : Int) (h0 : x < 0) (h1 : -4294967296 ≤ x) :
    (toUInt32 x : Int) = x + 4294967296 := by
  unfold toUInt32
  have hm : x % 4294967296 = x + 4294967296 := by omega
  rw [hm]
  exact Int.toNat_of_nonneg (by omega)

/-- Claim C11, as the code has it: for every level the vector derived for BLOSC has
exactly 7 fields, `[0, 0, 0, 0, level capped at 9, 1, 2]`, and the vector derived for
BLOSC2 has exactly 10 fields, `[0, 0, 0, 0, level capped at 9, 1, 2, 2, 4, 8]`. -/
theorem blosc_params_shape (level : Int) :
    getDefaultFilterParams H5Z_FILTER_BLOSC level =
      [0, 0, 0, 0, toUInt32 (min level 9), 1, 2] ∧
    (getDefaultFilterParams H5Z_FILTER_BLOSC level).length = 7 ∧
    getDefaultFilterParams H5Z_FILTER_BLOSC2 level =
      [0, 0, 0, 0, toUInt32 (min level 9), 1, 2, 2, 4, 8] ∧
    (getDefaultFilterParams H5Z_FILTER_BLOSC2 level).length = 10 := by
  have hl : bloscLevel level = min level 9 := by
    unfold bloscLevel
    split_ifs with h
    · exact (min_eq_right (le_of_lt h)).symm
    · exact (min_eq_left (not_lt.mp h)).symm
  have h1 : getDefaultFilterParams H5Z_FILTER_BLOSC level =
      [0, 0, 0, 0, toUInt32 (min level 9), 1, 2] := by
    simp [getDefaultFilterParams, hl, H5Z_FILTER_BLOSC, H5Z_FILTER_DEFLATE, H5Z_FILTER_BZIP2,
      H5Z_FILTER_LZ4, H5Z_FILTER_ZSTD]
  have h2 : getDefaultFilterParams H5Z_FILTER_BLOSC2 level =
      [0, 0, 0, 0, toUInt32 (min level 9), 1, 2, 2, 4, 8] := by
    simp [getDefaultFilterParams, hl, H5Z_FILTER_BLOSC, H5Z_FILTER_BLOSC2, H5Z_FILTER_DEFLATE,
      H5Z_FILTER_BZIP2, H5Z_FILTER_LZ4, H5Z_FILTER_ZSTD]
  refine ⟨h1, ?_, h2, ?_⟩
  · rw [h1]; rfl
  · rw [h2]; rfl

/-- Claim C11 as stated fails: at level 5 the BLOSC vector has 7 fields, not 4, and the
BLOSC2 vector has 10 fields, not 6. -/
theorem blosc_params_not_four_or_six :
    getDefaultFilterParams H5Z_FILTER_BLOSC 5 = [0, 0, 0, 0, 5, 1, 2] ∧
    (getDefaultFilterParams H5Z_FILTER_BLOSC 5).length ≠ 4 ∧
    getDefaultFilterParams H5Z_FILTER_BLOSC2 5 = [0, 0, 0, 0, 5, 1, 2, 2, 4, 8] ∧
    (getDefaultFilterParams H5Z_FILTER_BLOSC2 5).length ≠ 6 := by
  decide

/-- Claim C12: for the DEFLATE codec and every level the derived vector is the one-element
vector holding the level converted to `unsigned int`: the level itself when it is an
`int` that is not negative (0 included), the level plus `2^32` when it is a negative
`int`. -/
theorem deflate_params (level : Int) :
    getDefaultFilterParams H5Z_FILTER_DEFLATE level = [toUInt32 level] ∧
    (IsInt32 level → 0 ≤ level → toUInt32 level = level.toNat) ∧
    (IsInt32 level → level < 0 → (toUInt32 level : Int) = level + 4294967296) := by
  refine ⟨by simp [getDefaultFilterParams], ?_, ?_⟩
  · intro hi h0
    unfold IsInt32 at hi
    exact toUInt32_of_nonneg _ h0 (by omega)
  · intro hi h0
    unfold IsInt32 at hi
    exact toUInt32_of_neg _ h0 (by omega)

/-- The witness of `deflate_params`: level −1 is stored as 4294967295. -/
theorem deflate_params_witness :
    (toUInt32 (-1) : Int) = -1 + 4294967296 :=
  (deflate_params (-1)).2.2 (by decide) (by decide)

/-- Claim C13: for the SZIP codec and every level the derived vector is `[4, p]`, where
`p` is the level when the level is 4, 8 or 32, and 32 for every other level. -/
theorem szip_params (level : Int) :
    getDefaultFilterParams H5Z_FILTER_SZIP level =
      [4, if level = 4 ∨ level = 8 ∨ level = 32 then level.toNat else 32] := by
  have hdef : getDefaultFilterParams H5Z_FILTER_SZIP level =
      [4, if level = 4 ∨ level = 8 ∨ level = 32 then toUInt32 level else 32] := by
    simp [getDefaultFilterParams, H5Z_FILTER_SZIP, H5Z_FILTER_BLOSC, H5Z_FILTER_BLOSC2,
      H5Z_FILTER_DEFLATE, H5Z_FILTER_BZIP2, H5Z_FILTER_LZ4, H5Z_FILTER_ZSTD]
  rw [hdef]
  split_ifs with h
  · rcases h with rfl | rfl | rfl <;> rfl
  · rfl

/-- Claim C14: for the VBZ codec and every `int` level the derived vector has exactly four
fields `[1, 2, 1, e]`, where `e` is the level when the level is `> 0` and 3 otherwise. -/
theorem vbz_params (level : Int) (hint : IsInt32 level) :
    getDefaultFilterParams H5Z_FILTER_VBZ level =
      [1, 2, 1, if level > 0 then level.toNat else 3] ∧
    (getDefaultFilterParams H5Z_FILTER_VBZ level).length = 4 := by
  unfold IsInt32 at hint
  have hdef : getDefaultFilterParams H5Z_FILTER_VBZ level =
      [1, 2, 1, toUInt32 (if level > 0 then level else 3)] := by
    simp [getDefaultFilterParams, H5Z_FILTER_VBZ, H5Z_FILTER_SZIP, H5Z_FILTER_BLOSC,
      H5Z_FILTER_BLOSC2, H5Z_FILTER_DEFLATE, H5Z_FILTER_BZIP2, H5Z_FILTER_LZ4, H5Z_FILTER_ZSTD]
  have he : toUInt32 (if level > 0 then level else 3) = if level > 0 then level.toNat else 3 := by
    split_ifs with h
    · exact toUInt32_of_nonneg _ (by omega) (by omega)
    · rfl
  rw [hdef, he]
  exact ⟨rfl, rfl⟩

/-- The witness of `vbz_params` at level 1, the only level the registry lists for VBZ. -/
theorem vbz_params_witness :
    getDefaultFilterParams H5Z_FILTER_VBZ 1 =
      [1, 2, 1, if (1 : Int) > 0 then (1 : Int).toNat else 3] ∧
    (getDefaultFilterParams H5Z_FILTER_VBZ 1).length = 4 :=
  vbz_params 1 (by decide)

/-- Claim C15: for every identifier without a dedicated case (any identifier other than
DEFLATE, BZIP2, LZ4, ZSTD, BLOSC, BLOSC2, SZIP, VBZ; the unresolved identifier −1 is one)
and every `int` level, the derived vector is `[level]` when the level is `> 0` and empty
when it is `<= 0`. -/
theorem default_case_params (filter_id level : Int) (hint : IsInt32 level)
    (hid : filter_id ≠ H5Z_FILTER_DEFLATE ∧ filter_id ≠ H5Z_FILTER_BZIP2 ∧
      filter_id ≠ H5Z_FILTER_LZ4 ∧ filter_id ≠ H5Z_FILTER_ZSTD ∧
      filter_id ≠ H5Z_FILTER_BLOSC ∧ filter_id ≠ H5Z_FILTER_BLOSC2 ∧
      filter_id ≠ H5Z_FILTER_SZIP ∧ filter_id ≠ H5Z_FILTER_VBZ) :
    (0 < level → getDefaultFilterParams filter_id level = [level.toNat]) ∧
    (level ≤ 0 → getDefaultFilterParams filter_id level = []) := by
  unfold IsInt32 at hint
  obtain ⟨h1, h2, h3, h4, h5, h6, h7, h8⟩ := hid
  have hdef : getDefaultFilterParams filter_id level =
      if level > 0 then [toUInt32 level] else [] := by
    simp [getDefaultFilterParams, h1, h2, h3, h4, h5, h6, h7, h8]
  rw [hdef]
  constructor
  · intro h
    rw [if_pos h, toUInt32_of_nonneg _ (by omega) (by omega)]
  · intro h
    rw [if_neg (by omega)]

/-- The witness of `default_case_params`: the unresolved identifier −1 at level 6. -/
theorem default_case_params_witness :
    getDefaultFilterParams (-1) 6 = [(6 : Int).toNat] :=
  (default_case_params (-1) 6 (by decide) (by decide)).1 (by decide)

/-! ## The parameters argument of the run executor -/

theorem process_callback_filter (v : VisitEnv) (s : WalkState) :
    (process_callback v s).2.data.filter_id = s.data.filter_id ∧
    (process_callback v s).2.data.filter_params = s.data.filter_params := by
  rw [process_callback_data]
  split_ifs
  · exact ⟨rfl, rfl⟩
  · cases v.objType with
    | group => exact ⟨(groupStep_totals v s).2.2.1, (groupStep_totals v s).2.2.2⟩
    | dataset =>
      have hd := datasetStep_data v s
      have key : (datasetStep v s).2.data.filter_id = s.data.filter_id ∧
          (datasetStep v s).2.data.filter_params = s.data.filter_params := by
        rw [hd]; split_ifs <;> exact ⟨rfl, rfl⟩
      exact key
    | other => exact ⟨rfl, rfl⟩

theorem walk_filter (vs : List VisitEnv) (s : WalkState) :
    (walk vs s).2.data.filter_id = s.data.filter_id ∧
    (walk vs s).2.data.filter_params = s.data.filter_params := by
  induction vs generalizing s with
  | nil => exact ⟨rfl, rfl⟩
  | cons v vs ih =>
    have hstep := process_callback_filter v s
    unfold walk
    simp only
    split_ifs
    · exact hstep
    · have := ih (process_callback v s).2
      exact ⟨this.1.trans hstep.1, this.2.trans hstep.2⟩

/-- Claim C16, as the code has it: `testCompression` never reads its `parameters`
argument.  Whatever the argument is, the files opened, the walk and every filter call are
those of the call with empty parameters, the returned result differs from that
call's result in the `parameters` field only, and the walk runs with the vector derived
from the filter identifier and the level. -/
theorem parameters_argument_ignored (env : TrialEnv)
    (input_file filter_name parameters : String) (compression_level : Int)
    (output_dir : String) :
    (testCompressionFull env input_file filter_name parameters compression_level
        output_dir).2 =
      (testCompressionFull env input_file filter_name "" compression_level output_dir).2 ∧
    (testCompressionFull env input_file filter_name parameters compression_level
        output_dir).1 =
      { (testCompressionFull env input_file filter_name "" compression_level output_dir).1
        with parameters := parameters } ∧
    (∀ w, (testCompressionFull env input_file filter_name parameters compression_level
        output_dir).2.2 = some w →
      w.data.filter_id = getFilterIdFromName filter_name ∧
      w.data.filter_params =
        getDefaultFilterParams (getFilterIdFromName filter_name) compression_level) := by
  unfold testCompressionFull
  by_cases h1 : env.fileExists = true
  · by_cases h2 : getFilterIdFromName filter_name = -1
    · simp [h1, h2, initialResult]
    · by_cases h3 : env.srcFileId < 0
      · simp [h1, h2, h3, initialResult]
      · by_cases h4 : env.dstFileId < 0
        · simp [h1, h2, h3, h4, initialResult]
        · simp only [h1, h2, h3, h4, not_true_eq_false, if_false, true_and]
          refine ⟨?_, ?_⟩
          · simp only [withRatio, initialResult]
            split_ifs <;> rfl
          · intro w hw
            simp only [Option.some.injEq] at hw
            subst hw
            exact walk_filter _ _
  · simp [h1, initialResult]

/-- The witness of `parameters_argument_ignored`: a ZSTD trial at level 9 that is given the
explicit parameters `level=3`; its walk ran with the identifier of ZSTD and the vector
derived for level 9. -/
theorem parameters_argument_ignored_witness :
    (walk [okVisit "read_0/Raw/Signal" ObjType.dataset [] 1000 100]
      (initState (getFilterIdFromName "ZSTD")
        (getDefaultFilterParams (getFilterIdFromName "ZSTD") 9))).2.data.filter_id =
      getFilterIdFromName "ZSTD" ∧
    (walk [okVisit "read_0/Raw/Signal" ObjType.dataset [] 1000 100]
      (initState (getFilterIdFromName "ZSTD")
        (getDefaultFilterParams (getFilterIdFromName "ZSTD") 9))).2.data.filter_params =
      getDefaultFilterParams (getFilterIdFromName "ZSTD") 9 :=
  (parameters_argument_ignored
    (okTrial [okVisit "read_0/Raw/Signal" ObjType.dataset [] 1000 100])
    "reads.h5" "ZSTD" "level=3" 9 "results").2.2
    (walk [okVisit "read_0/Raw/Signal" ObjType.dataset [] 1000 100]
      (initState (getFilterIdFromName "ZSTD")
        (getDefaultFilterParams (getFilterIdFromName "ZSTD") 9))).2
    (by decide)

/-- Claim C16 as stated fails: a ZSTD trial at level 9 that is given the non-empty explicit
parameters `level=3` applies the derived vector `[20]` to the creation property list. -/
theorem explicit_parameters_still_derived :
    "level=3" ≠ "" ∧
    getDefaultFilterParams (getFilterIdFromName "ZSTD") 9 = [20] ∧
    (testCompressionFull
        (okTrial [okVisit "read_0/Raw/Signal" ObjType.dataset [] 1000 100])
        "reads.h5" "ZSTD" "level=3" 9 "results").2.2.map (fun w => w.fx.filterCalls) =
      some [FilterCall.generic H5Z_FILTER_ZSTD false [20]] := by
  decide

/-! ## Shape of the sweep -/

theorem map_enumFrom_snd {α β : Type} (g : α → β) (l : List α) (n : Nat) :
    (l.enumFrom n).map (fun p => g p.2) = l.map g := by
  induction l generalizing n with
  | nil => rfl
  | cons x xs ih => simp [List.enumFrom, ih]

theorem testFilterWithLevels_length (env : Nat → TrialEnv) (input_file filter_name : String)
    (levels : List Int) :
    (testFilterWithLevels env input_file filter_name levels).length = levels.length := by
  unfold testFilterWithLevels
  rw [List.length_map, List.enum_length]

theorem testCompression_unresolved (env : TrialEnv) (input_file filter_name parameters : String)
    (compression_level : Int) (output_dir : String)
    (h : getFilterIdFromName filter_name = -1) :
    testCompression env input_file filter_name parameters compression_level output_dir =
      initialResult filter_name parameters compression_level := by
  unfold testCompression testCompressionFull
  by_cases h1 : env.fileExists = true
  · simp [h1, h]
  · simp [h1]

theorem lookup_const {α : Type} (c : α) (k : String) :
    ∀ (l : List (String × α)), (∀ p ∈ l, p.2 = c) → ∀ v, l.lookup k = some v → v = c := by
  intro l
  induction l with
  | nil => intro _ v hv; simp at hv
  | cons p ps ih =>
    intro hall v hv
    obtain ⟨a, b⟩ := p
    rw [List.lookup_cons] at hv
    cases hk : (k == a) with
    | true =>
      rw [hk] at hv
      simp only [Option.some.injEq] at hv
      rw [← hv]
      exact hall (a, b) (List.mem_cons_self _ _)
    | false =>
      rw [hk] at hv
      exact ih (fun q hq => hall q (List.mem_cons_of_mem _ hq)) v hv

theorem levelsFor_default (test_all_levels : Bool) (filter_name : String) :
    levelsFor test_all_levels filter_name = [1, 6, 9] := by
  unfold levelsFor
  cases test_all_levels with
  | false => rfl
  | true =>
    cases hl : getFilterLevels.lookup filter_name with
    | none => rfl
    | some levels =>
      have := lookup_const ([1, 6, 9] : List Int) filter_name getFilterLevels
        (by decide) levels hl
      simp [this]

theorem runTestSuite_length (env : SuiteEnv) (config : TestConfig)
    (h : env.fileExists = true) :
    (runTestSuite env config).length =
      1 + (config.filters_to_test.map
        (fun name => (levelsFor config.test_all_levels name).length)).sum := by
  unfold runTestSuite
  simp only [h, not_true_eq_false, if_false, List.length_cons, List.length_flatten,
    List.map_map]
  have hfun : (List.length ∘ fun (ifn : Nat × String) =>
      testFilterWithLevels (env.trial ifn.1) config.input_file ifn.2
        (levelsFor config.test_all_levels ifn.2)) =
      fun (ifn : Nat × String) => (levelsFor config.test_all_levels ifn.2).length := by
    funext ifn
    exact testFilterWithLevels_length _ _ _ _
  rw [hfun, List.enum, map_enumFrom_snd (fun name => (levelsFor config.test_all_levels name).length)]
  omega

/-- Claim C17: when the input file exists, `runTestSuite` returns the baseline (filter
`None`, empty parameters, level 0, ratio 1.0, both timings 0, both sizes the input file
size) followed, filter by filter in the requested order and level by level in list order,
by the result of one `testCompression` call with empty parameters and output directory
`results`; its length is 1 plus the sum of the level-list lengths; a filter name that
resolves to no identifier contributes one zero result per level and the filters after it
are still run. -/
theorem runTestSuite_shape (env : SuiteEnv) (config : TestConfig)
    (h : env.fileExists = true) :
    runTestSuite env config =
      { filter_name := "None", parameters := "", compression_level := 0,
        compression_ratio := 1, compression_time_ms := 0, decompression_time_ms := 0,
        compressed_size_bytes := env.fileSize, original_size_bytes := env.fileSize } ::
      (config.filters_to_test.enum.map (fun ifn =>
        (levelsFor config.test_all_levels ifn.2).enum.map (fun jl =>
          testCompression (env.trial ifn.1 jl.1) config.input_file ifn.2 "" jl.2
            "results"))).flatten ∧
    (runTestSuite env config).length =
      1 + (config.filters_to_test.map
        (fun name => (levelsFor config.test_all_levels name).length)).sum ∧
    (∀ (e : Nat → TrialEnv) (filter_name : String) (levels : List Int),
      getFilterIdFromName filter_name = -1 →
      testFilterWithLevels e config.input_file filter_name levels =
        levels.map (fun level =>
          { filter_name := filter_name, parameters := "", compression_level := level,
            compression_ratio := 1, compression_time_ms := 0, decompression_time_ms := 0,
            compressed_size_bytes := 0, original_size_bytes := 0 })) := by
  refine ⟨?_, runTestSuite_length env config h, ?_⟩
  · unfold runTestSuite testFilterWithLevels baselineResult
    simp only [h, not_true_eq_false, if_false]
  · intro e filter_name levels hid
    unfold testFilterWithLevels
    have hfun : (fun (jl : Nat × Int) =>
        testCompression (e jl.1) config.input_file filter_name "" jl.2 "results") =
        fun (jl : Nat × Int) => initialResult filter_name "" jl.2 := by
      funext jl
      exact testCompression_unresolved _ _ _ _ _ _ hid
    rw [hfun, List.enum, map_enumFrom_snd (fun level => initialResult filter_name "" level)]
    rfl

/-- The witness of `runTestSuite_shape`: a sweep over the unknown name `FOO` and then
`GZIP`; it has 7 results. -/
theorem runTestSuite_shape_witness :
    (runTestSuite okSuite
      { input_file := "reads.h5", output_dir := "results", filters_to_test := ["FOO", "GZIP"],
        test_all_levels := true, include_shuffle := true, verbose := false }).length =
      1 + (["FOO", "GZIP"].map (fun name => (levelsFor true name).length)).sum :=
  (runTestSuite_shape okSuite
    { input_file := "reads.h5", output_dir := "results", filters_to_test := ["FOO", "GZIP"],
      test_all_levels := true, include_shuffle := true, verbose := false } rfl).2.1

/-- Claim C18, as the code has it: the levels run for a requested filter are `[1, 6, 9]`
for every filter name and either value of the sweep-all flag, so a sweep over an existing
input has 1 plus 3 results per requested filter.  The registry of supported levels is not
consulted. -/
theorem levels_always_default (test_all_levels : Bool) (filter_name : String)
    (env : SuiteEnv) (config : TestConfig) :
    levelsFor test_all_levels filter_name = [1, 6, 9] ∧
    (env.fileExists = true →
      (runTestSuite env config).length = 1 + 3 * config.filters_to_test.length) := by
  refine ⟨levelsFor_default _ _, ?_⟩
  intro h
  rw [runTestSuite_length env config h]
  have hfun : (fun name => (levelsFor config.test_all_levels name).length) =
      fun (_ : String) => 3 := by
    funext name
    rw [levelsFor_default]
    rfl
  rw [hfun]
  simp [List.map_const', List.sum_replicate, Nat.mul_comm]

/-- The witness of `levels_always_default`: sweeping all levels of ZSTD alone gives the
baseline and three trials. -/
theorem levels_always_default_witness :
    (runTestSuite okSuite
      { input_file := "reads.h5", output_dir := "results", filters_to_test := ["ZSTD"],
        test_all_levels := true, include_shuffle := true, verbose := false }).length =
      1 + 3 * ["ZSTD"].length :=
  (levels_always_default true "ZSTD" okSuite
    { input_file := "reads.h5", output_dir := "results", filters_to_test := ["ZSTD"],
      test_all_levels := true, include_shuffle := true, verbose := false }).2 rfl

/-- Claim C18 as stated fails: with the sweep-all flag on, the registered filters ZSTD
and GZIP are run at the levels `[1, 6, 9]`, which are not their registered supported-level
lists of 19 and 9 levels. -/
theorem registered_levels_not_used :
    (FilterDefinitions.getFilterInfo "ZSTD").filter_id ≠ -1 ∧
    (FilterDefinitions.getFilterInfo "ZSTD").supported_levels.length = 19 ∧
    levelsFor true "ZSTD" = [1, 6, 9] ∧
    levelsFor true "ZSTD" ≠ (FilterDefinitions.getFilterInfo "ZSTD").supported_levels ∧
    (FilterDefinitions.getFilterInfo "GZIP").supported_levels.length = 9 ∧
    levelsFor true "GZIP" = [1, 6, 9] ∧
    levelsFor true "GZIP" ≠ (FilterDefinitions.getFilterInfo "GZIP").supported_levels := by
  decide

/-- Claim C19, as the code has it: when the input file does not exist, `runTestSuite`
returns the empty sequence: no baseline and no trial. -/
theorem missing_input_gives_no_results (env : SuiteEnv) (config : TestConfig)
    (h : env.fileExists = false) :
    runTestSuite env config = [] := by
  unfold runTestSuite
  simp [h]

/-- The witness of `missing_input_gives_no_results`: a sweep over GZIP on a missing
input. -/
theorem missing_input_gives_no_results_witness :
    runTestSuite { okSuite with fileExists := false }
      { input_file := "reads.h5", output_dir := "results", filters_to_test := ["GZIP"],
        test_all_levels := true, include_shuffle := true, verbose := false } = [] :=
  missing_input_gives_no_results { okSuite with fileExists := false }
    { input_file := "reads.h5", output_dir := "results", filters_to_test := ["GZIP"],
      test_all_levels := true, include_shuffle := true, verbose := false } rfl

/-- Claim C19 as stated fails: for a missing input and the requested filter GZIP, whose
level list has three levels, the returned sequence has no element at all. -/
theorem missing_input_runs_no_trial :
    (levelsFor true "GZIP").length = 3 ∧
    (runTestSuite { okSuite with fileExists := false }
      { input_file := "reads.h5", output_dir := "results", filters_to_test := ["GZIP"],
        test_all_levels := true, include_shuffle := true, verbose := false }).length = 0 := by
  decide

/-! ## Highlighted results of the report -/

theorem maxElementLoop_lt {α : Type} (comp : α → α → Bool) (xs : List α) (i : Nat) (b : α)
    (bi : Nat) (h : bi < i) : maxElementLoop comp xs i b bi < i + xs.length := by
  induction xs generalizing i b bi with
  | nil => simpa [maxElementLoop] using h
  | cons x xs ih =>
    unfold maxElementLoop
    split_ifs
    · have := ih (i + 1) x i (Nat.lt_succ_self i)
      simp only [List.length_cons]; omega
    · have := ih (i + 1) b bi (Nat.lt_succ_of_lt h)
      simp only [List.length_cons]; omega

theorem minElementLoop_lt {α : Type} (comp : α → α → Bool) (xs : List α) (i : Nat) (b : α)
    (bi : Nat) (h : bi < i) : minElementLoop comp xs i b bi < i + xs.length := by
  induction xs generalizing i b bi with
  | nil => simpa [minElementLoop] using h
  | cons x xs ih =>
    unfold minElementLoop
    split_ifs
    · have := ih (i + 1) x i (Nat.lt_succ_self i)
      simp only [List.length_cons]; omega
    · have := ih (i + 1) b bi (Nat.lt_succ_of_lt h)
      simp only [List.length_cons]; omega

theorem minElementLoop_keep {α : Type} (comp : α → α → Bool) (xs : List α) (i : Nat) (b : α)
    (bi : Nat) (h : ∀ x ∈ xs, comp x b = false) : minElementLoop comp xs i b bi = bi := by
  induction xs generalizing i with
  | nil => rfl
  | cons x xs ih =>
    unfold minElementLoop
    rw [h x (List.mem_cons_self _ _)]
    simp only [Bool.false_eq_true, if_false]
    exact ih (i + 1) (fun y hy => h y (List.mem_cons_of_mem _ hy))

/-- Claim C20, as the code has it: the three highlighted results are chosen among all
results of the sequence, the first one included: for every sequence with a first element
the three picks exist and are positions of the sequence, and whenever no later result has
a smaller compression time than the first one (as for a baseline, whose time is 0, followed
by results with non-negative times) the fastest pick is the first element itself. -/
theorem highlights_include_first (b : CompressionResult) (rest : List CompressionResult) :
    (∃ h, reportHighlights (b :: rest) = some h ∧
      h.max_ratio < (b :: rest).length ∧ h.min_time < (b :: rest).length ∧
      h.best_balance < (b :: rest).length) ∧
    ((∀ r ∈ rest, b.compression_time_ms ≤ r.compression_time_ms) →
      ∃ h, reportHighlights (b :: rest) = some h ∧ h.min_time = 0) := by
  have hlen : ∀ n, n < 1 + rest.length → n < (b :: rest).length := by
    intro n hn
    simp only [List.length_cons]; omega
  constructor
  · refine ⟨_, rfl, ?_, ?_, ?_⟩
    · exact hlen _ (maxElementLoop_lt ratioLess rest 1 b 0 Nat.zero_lt_one)
    · exact hlen _ (minElementLoop_lt timeLess rest 1 b 0 Nat.zero_lt_one)
    · exact hlen _ (maxElementLoop_lt balanceLess rest 1 b 0 Nat.zero_lt_one)
  · intro hall
    refine ⟨_, rfl, ?_⟩
    apply minElementLoop_keep
    intro r hr
    unfold timeLess
    exact decide_eq_false (not_lt.mpr (hall r hr))

/-- The witness of `highlights_include_first`: the baseline followed by one GZIP result
with ratio 2 and compression time 10 ms. -/
theorem highlights_include_first_witness :
    ∃ h, reportHighlights
      [baselineResult 4096,
       { filter_name := "GZIP", parameters := "", compression_level := 6,
         compression_ratio := 2, compression_time_ms := 10, decompression_time_ms := 1,
         compressed_size_bytes := 1000, original_size_bytes := 2000 }] = some h ∧
      h.min_time = 0 :=
  (highlights_include_first (baselineResult 4096)
    [{ filter_name := "GZIP", parameters := "", compression_level := 6,
       compression_ratio := 2, compression_time_ms := 10, decompression_time_ms := 1,
       compressed_size_bytes := 1000, original_size_bytes := 2000 }]).2
    (by
      intro r hr
      simp only [List.mem_singleton] at hr
      subst hr
      decide)

/-- Claim C20 as stated fails: for the baseline followed by one GZIP result with ratio 2
and compression time 10 ms, the fastest pick and the best-balance pick are both the
baseline (position 0); only the best-ratio pick is the GZIP result. -/
theorem baseline_is_highlighted :
    reportHighlights
      [baselineResult 4096,
       { filter_name := "GZIP", parameters := "", compression_level := 6,
         compression_ratio := 2, compression_time_ms := 10, decompression_time_ms := 1,
         compressed_size_bytes := 1000, original_size_bytes := 2000 }] =
      some { max_ratio := 1, min_time := 0, best_balance := 0 } := by
  have h1 : ratioLess (baselineResult 4096)
      { filter_name := "GZIP", parameters := "", compression_level := 6,
        compression_ratio := 2, compression_time_ms := 10, decompression_time_ms := 1,
        compressed_size_bytes := 1000, original_size_bytes := 2000 } = true := by
    simp [ratioLess, baselineResult]
  have h2 : timeLess
      { filter_name := "GZIP", parameters := "", compression_level := 6,
        compression_ratio := 2, compression_time_ms := 10, decompression_time_ms := 1,
        compressed_size_bytes := 1000, original_size_bytes := 2000 }
      (baselineResult 4096) = false := by
    simp [timeLess, baselineResult]
  have h3 : balanceLess (baselineResult 4096)
      { filter_name := "GZIP", parameters := "", compression_level := 6,
        compression_ratio := 2, compression_time_ms := 10, decompression_time_ms := 1,
        compressed_size_bytes := 1000, original_size_bytes := 2000 } = false := by
    simp only [balanceLess, balanceScore, baselineResult, decide_eq_false_iff_not]
    norm_num
  simp [reportHighlights, max_element, min_element, maxElementLoop, minElementLoop, h1, h2, h3]

/-! ## Stable selection of the highlighted results -/

theorem getElem?_snoc {α : Type} (pre : List α) (x y : α) (j : Nat)
    (h : (pre ++ [x])[j]? = some y) : pre[j]? = some y ∨ (j = pre.length ∧ y = x) := by
  rw [List.getElem?_append] at h
  split_ifs at h with hj
  · exact Or.inl h
  · right
    have hz : j - pre.length = 0 := by
      by_contra hne
      have hn : [x][j - pre.length]? = none := by
        apply List.getElem?_eq_none
        simp only [List.length_singleton]
        omega
      rw [hn] at h
      cases h
    rw [hz] at h
    simp only [List.getElem?_cons_zero, Option.some.injEq] at h
    exact ⟨by omega, h.symm⟩

theorem getElem?_lt_length {α : Type} (l : List α) (j : Nat) (x : α) (h : l[j]? = some x) :
    j < l.length := by
  obtain ⟨hj, _⟩ := List.getElem?_eq_some.mp h
  exact hj

theorem maxElementLoop_spec {α β : Type} [LinearOrder β] (key : α → β) (comp : α → α → Bool)
    (hcomp : ∀ a c, comp a c = true ↔ key a < key c) (xs : List α) :
    ∀ (pre : List α) (b : α) (bi : Nat), pre[bi]? = some b →
      (∀ (j : Nat) x, pre[j]? = some x → key x ≤ key b) →
      (∀ (j : Nat) x, j < bi → pre[j]? = some x → key x < key b) →
      IsFirstMax key (pre ++ xs) (maxElementLoop comp xs pre.length b bi) := by
  induction xs with
  | nil =>
    intro pre b bi hb hmax hfirst
    rw [List.append_nil]
    exact ⟨b, hb, hmax, hfirst⟩
  | cons x xs ih =>
    intro pre b bi hb hmax hfirst
    have hbi : bi < pre.length := getElem?_lt_length pre bi b hb
    have hassoc : pre ++ x :: xs = (pre ++ [x]) ++ xs := by simp
    have hlen : pre.length + 1 = (pre ++ [x]).length := by simp
    unfold maxElementLoop
    rw [hassoc, hlen]
    by_cases hlt : comp b x = true
    · rw [if_pos hlt]
      have hkey : key b < key x := (hcomp b x).mp hlt
      have h1 : (pre ++ [x])[pre.length]? = some x := List.getElem?_concat_length pre x
      have := ih (pre ++ [x]) x pre.length h1
        (by
          intro j y hy
          rcases getElem?_snoc pre x y j hy with hp | ⟨_, rfl⟩
          · exact le_of_lt (lt_of_le_of_lt (hmax j y hp) hkey)
          · exact le_refl _)
        (by
          intro j y hj hy
          rcases getElem?_snoc pre x y j hy with hp | ⟨hje, _⟩
          · exact lt_of_le_of_lt (hmax j y hp) hkey
          · omega)
      exact this
    · rw [if_neg hlt]
      have hkey : key x ≤ key b := not_lt.mp (fun h => hlt ((hcomp b x).mpr h))
      have h1 : (pre ++ [x])[bi]? = some b := by
        rw [List.getElem?_append_left hbi]; exact hb
      have := ih (pre ++ [x]) b bi h1
        (by
          intro j y hy
          rcases getElem?_snoc pre x y j hy with hp | ⟨_, rfl⟩
          · exact hmax j y hp
          · exact hkey)
        (by
          intro j y hj hy
          rcases getElem?_snoc pre x y j hy with hp | ⟨hje, _⟩
          · exact hfirst j y hj hp
          · omega)
      exact this

theorem minElementLoop_spec {α β : Type} [LinearOrder β] (key : α → β) (comp : α → α → Bool)
    (hcomp : ∀ a c, comp a c = true ↔ key a < key c) (xs : List α) :
    ∀ (pre : List α) (b : α) (bi : Nat), pre[bi]? = some b →
      (∀ (j : Nat) x, pre[j]? = some x → key b ≤ key x) →
      (∀ (j : Nat) x, j < bi → pre[j]? = some x → key b < key x) →
      IsFirstMin key (pre ++ xs) (minElementLoop comp xs pre.length b bi) := by
  induction xs with
  | nil =>
    intro pre b bi hb hmin hfirst
    rw [List.append_nil]
    exact ⟨b, hb, hmin, hfirst⟩
  | cons x xs ih =>
    intro pre b bi hb hmin hfirst
    have hbi : bi < pre.length := getElem?_lt_length pre bi b hb
    have hassoc : pre ++ x :: xs = (pre ++ [x]) ++ xs := by simp
    have hlen : pre.length + 1 = (pre ++ [x]).length := by simp
    unfold minElementLoop
    rw [hassoc, hlen]
    by_cases hlt : comp x b = true
    · rw [if_pos hlt]
      have hkey : key x < key b := (hcomp x b).mp hlt
      have h1 : (pre ++ [x])[pre.length]? = some x := List.getElem?_concat_length pre x
      have := ih (pre ++ [x]) x pre.length h1
        (by
          intro j y hy
          rcases getElem?_snoc pre x y j hy with hp | ⟨_, rfl⟩
          · exact le_of_lt (lt_of_lt_of_le hkey (hmin j y hp))
          · exact le_refl _)
        (by
          intro j y hj hy
          rcases getElem?_snoc pre x y j hy with hp | ⟨hje, _⟩
          · exact lt_of_lt_of_le hkey (hmin j y hp)
          · omega)
      exact this
    · rw [if_neg hlt]
      have hkey : key b ≤ key x := not_lt.mp (fun h => hlt ((hcomp x b).mpr h))
      have h1 : (pre ++ [x])[bi]? = some b := by
        rw [List.getElem?_append_left hbi]; exact hb
      have := ih (pre ++ [x]) b bi h1
        (by
          intro j y hy
          rcases getElem?_snoc pre x y j hy with hp | ⟨_, rfl⟩
          · exact hmin j y hp
          · exact hkey)
        (by
          intro j y hj hy
          rcases getElem?_snoc pre x y j hy with hp | ⟨hje, _⟩
          · exact hfirst j y hj hp
          · omega)
      exact this

theorem singleton_getElem? {α : Type} (b y : α) (j : Nat) (h : [b][j]? = some y) :
    j = 0 ∧ y = b := by
  have hj := getElem?_lt_length [b] j y h
  simp only [List.length_singleton] at hj
  have h0 : j = 0 := by omega
  subst h0
  simp only [List.getElem?_cons_zero, Option.some.injEq] at h
  exact ⟨rfl, h.symm⟩

theorem max_element_spec {α β : Type} [LinearOrder β] (key : α → β) (comp : α → α → Bool)
    (hcomp : ∀ a c, comp a c = true ↔ key a < key c) (b : α) (rest : List α) :
    ∃ i, max_element comp (b :: rest) = some i ∧ IsFirstMax key (b :: rest) i := by
  refine ⟨_, rfl, ?_⟩
  have := maxElementLoop_spec key comp hcomp rest [b] b 0 rfl
    (by
      intro j y hy
      rw [(singleton_getElem? b y j hy).2])
    (by intro j y hj; omega)
  exact this

theorem min_element_spec {α β : Type} [LinearOrder β] (key : α → β) (comp : α → α → Bool)
    (hcomp : ∀ a c, comp a c = true ↔ key a < key c) (b : α) (rest : List α) :
    ∃ i, min_element comp (b :: rest) = some i ∧ IsFirstMin key (b :: rest) i := by
  refine ⟨_, rfl, ?_⟩
  have := minElementLoop_spec key comp hcomp rest [b] b 0 rfl
    (by
      intro j y hy
      rw [(singleton_getElem? b y j hy).2])
    (by intro j y hj; omega)
  exact this

/-- Claim C21: for every non-empty result sequence the three picks exist; the best-ratio
pick is the lowest position whose ratio is maximal, the fastest pick is the lowest position
whose compression time is minimal, and the best-balance pick is the lowest position whose
score `ratio / (time + 1)` is maximal; for `[{ratio 2, time 10}, {ratio 2, time 5}]` the
best-ratio pick is position 0 and the fastest pick is position 1. -/
theorem highlights_are_first_extrema (results : List CompressionResult)
    (hne : results ≠ []) (r0 r1 : CompressionResult)
    (h0 : r0.compression_ratio = 2 ∧ r0.compression_time_ms = 10)
    (h1 : r1.compression_ratio = 2 ∧ r1.compression_time_ms = 5) :
    (∃ h, reportHighlights results = some h ∧
      IsFirstMax (fun r => r.compression_ratio) results h.max_ratio ∧
      IsFirstMin (fun r => r.compression_time_ms) results h.min_time ∧
      IsFirstMax balanceScore results h.best_balance) ∧
    (∃ h, reportHighlights [r0, r1] = some h ∧ h.max_ratio = 0 ∧ h.min_time = 1) := by
  constructor
  · cases results with
    | nil => exact absurd rfl hne
    | cons b rest =>
      obtain ⟨i, hi, hmi⟩ := max_element_spec (fun r : CompressionResult => r.compression_ratio)
        ratioLess (by intro a c; simp [ratioLess]) b rest
      obtain ⟨j, hj, hmj⟩ := min_element_spec
        (fun r : CompressionResult => r.compression_time_ms)
        timeLess (by intro a c; simp [timeLess]) b rest
      obtain ⟨k, hk, hmk⟩ := max_element_spec balanceScore
        balanceLess (by intro a c; simp [balanceLess]) b rest
      refine ⟨{ max_ratio := i, min_time := j, best_balance := k }, ?_, hmi, hmj, hmk⟩
      unfold reportHighlights
      rw [hi, hj, hk]
  · have e1 : ratioLess r0 r1 = false := by simp [ratioLess, h0.1, h1.1]
    have e2 : timeLess r1 r0 = true := by simp [timeLess, h0.2, h1.2]
    refine ⟨_, rfl, ?_, ?_⟩
    · simp [maxElementLoop, e1]
    · simp [minElementLoop, e2]

/-- The witness of `highlights_are_first_extrema`: the two results of the example, as
GZIP trials at levels 1 and 6. -/
theorem highlights_are_first_extrema_witness :
    ∃ h, reportHighlights
      [{ filter_name := "GZIP", parameters := "", compression_level := 1,
         compression_ratio := 2, compression_time_ms := 10, decompression_time_ms := 0,
         compressed_size_bytes := 1000, original_size_bytes := 2000 },
       { filter_name := "GZIP", parameters := "", compression_level := 6,
         compression_ratio := 2, compression_time_ms := 5, decompression_time_ms := 0,
         compressed_size_bytes := 1000, original_size_bytes := 2000 }] = some h ∧
      h.max_ratio = 0 ∧ h.min_time = 1 :=
  (highlights_are_first_extrema
    [{ filter_name := "GZIP", parameters := "", compression_level := 1,
       compression_ratio := 2, compression_time_ms := 10, decompression_time_ms := 0,
       compressed_size_bytes := 1000, original_size_bytes := 2000 }]
    (by simp)
    { filter_name := "GZIP", parameters := "", compression_level := 1,
      compression_ratio := 2, compression_time_ms := 10, decompression_time_ms := 0,
      compressed_size_bytes := 1000, original_size_bytes := 2000 }
    { filter_name := "GZIP", parameters := "", compression_level := 6,
      compression_ratio := 2, compression_time_ms := 5, decompression_time_ms := 0,
      compressed_size_bytes := 1000, original_size_bytes := 2000 }
    ⟨rfl, rfl⟩ ⟨rfl, rfl⟩).2

/-! ## Registry lookups -/

theorem registry_names_nodup :
    (FilterDefinitions.getAllFilters.map (fun f => f.name)).Nodup := by
  decide

theorem registry_ids_nodup :
    (FilterDefinitions.getAllFilters.map (fun f => f.filter_id)).Nodup := by
  decide

theorem registry_ids_ne_neg_one :
    ∀ f ∈ FilterDefinitions.getAllFilters, f.filter_id ≠ -1 := by
  decide

theorem registry_names_ne_unknown :
    ∀ f ∈ FilterDefinitions.getAllFilters, f.name ≠ "UNKNOWN" := by
  decide

/-- Claim C22: lookup by name returns a record whose identifier is −1 exactly when the
name is not in the registry; for a registered name it returns the registry entry with
that name, and for an unregistered name the record carrying the queried name, the
description `Unknown filter`, no supported levels, zero parameter counts and no chunking
requirement. -/
theorem lookup_by_name (filter_name : String) :
    ((FilterDefinitions.getFilterInfo filter_name).filter_id = -1 ↔
      ∀ f ∈ FilterDefinitions.getAllFilters, f.name ≠ filter_name) ∧
    (∀ f ∈ FilterDefinitions.getAllFilters, f.name = filter_name →
      FilterDefinitions.getFilterInfo filter_name = f) ∧
    ((∀ f ∈ FilterDefinitions.getAllFilters, f.name ≠ filter_name) →
      FilterDefinitions.getFilterInfo filter_name =
        { filter_id := -1, name := filter_name, description := "Unknown filter",
          supported_levels := [], min_params := 0, max_params := 0,
          requires_chunking := false }) := by
  unfold FilterDefinitions.getFilterInfo
  cases hfind : FilterDefinitions.getAllFilters.find? (fun f => decide (f.name = filter_name)) with
  | none =>
    have hnone : ∀ f ∈ FilterDefinitions.getAllFilters, f.name ≠ filter_name := by
      intro f hf hname
      have := List.find?_eq_none.mp hfind f hf
      simp [hname] at this
    refine ⟨⟨fun _ => hnone, fun _ => rfl⟩, ?_, fun _ => rfl⟩
    intro f hf hname
    exact absurd hname (hnone f hf)
  | some g =>
    have hg : g ∈ FilterDefinitions.getAllFilters := List.mem_of_find?_eq_some hfind
    have hgn : g.name = filter_name := by
      have := List.find?_some hfind
      simpa using this
    refine ⟨⟨?_, ?_⟩, ?_, ?_⟩
    · intro hid
      exact absurd hid (registry_ids_ne_neg_one g hg)
    · intro hall
      exact absurd hgn (hall g hg)
    · intro f hf hname
      exact List.inj_on_of_nodup_map registry_names_nodup hg hf (hgn.trans hname.symm)
    · intro hall
      exact absurd hgn (hall g hg)

/-- The witness of `lookup_by_name`: the unregistered name `FOO`. -/
theorem lookup_by_name_witness :
    FilterDefinitions.getFilterInfo "FOO" =
      { filter_id := -1, name := "FOO", description := "Unknown filter",
        supported_levels := [], min_params := 0, max_params := 0,
        requires_chunking := false } :=
  (lookup_by_name "FOO").2.2 (by decide)

/-- Claim C23, as the code has it: for every identifier that is not in the registry,
lookup by identifier returns the record carrying the queried identifier, the name
`UNKNOWN`, the description `Unknown filter`, no supported levels, zero parameter counts
and no chunking requirement; no registered record has the name `UNKNOWN`, so a caller
can tell the record from every registered one by its name; for the identifier of a
registered record the lookup returns that record. -/
theorem lookup_by_id (filter_id : Int) :
    ((∀ f ∈ FilterDefinitions.getAllFilters, f.filter_id ≠ filter_id) →
      FilterDefinitions.getFilterInfoById filter_id =
        { filter_id := filter_id, name := "UNKNOWN", description := "Unknown filter",
          supported_levels := [], min_params := 0, max_params := 0,
          requires_chunking := false }) ∧
    (∀ f ∈ FilterDefinitions.getAllFilters, f.name ≠ "UNKNOWN") ∧
    (∀ f ∈ FilterDefinitions.getAllFilters, f.filter_id = filter_id →
      FilterDefinitions.getFilterInfoById filter_id = f) := by
  unfold FilterDefinitions.getFilterInfoById
  cases hfind : FilterDefinitions.getAllFilters.find?
      (fun f => decide (f.filter_id = filter_id)) with
  | none =>
    have hnone : ∀ f ∈ FilterDefinitions.getAllFilters, f.filter_id ≠ filter_id := by
      intro f hf hid
      have := List.find?_eq_none.mp hfind f hf
      simp [hid] at this
    refine ⟨fun _ => rfl, registry_names_ne_unknown, ?_⟩
    intro f hf hid
    exact absurd hid (hnone f hf)
  | some g =>
    have hg : g ∈ FilterDefinitions.getAllFilters := List.mem_of_find?_eq_some hfind
    have hgi : g.filter_id = filter_id := by
      have := List.find?_some hfind
      simpa using this
    refine ⟨?_, registry_names_ne_unknown, ?_⟩
    · intro hall
      exact absurd hgi (hall g hg)
    · intro f hf hid
      exact List.inj_on_of_nodup_map registry_ids_nodup hg hf (hgi.trans hid.symm)

/-- The witness of `lookup_by_id`: the unregistered identifier 999. -/
theorem lookup_by_id_witness :
    FilterDefinitions.getFilterInfoById 999 =
      { filter_id := 999, name := "UNKNOWN", description := "Unknown filter",
        supported_levels := [], min_params := 0, max_params := 0,
        requires_chunking := false } :=
  (lookup_by_id 999).1 (by decide)

/-- Claim C23 as stated fails: 999 is not a registered identifier, and the record
returned for it has the identifier 999, not −1. -/
theorem lookup_by_id_keeps_identifier :
    (∀ f ∈ FilterDefinitions.getAllFilters, f.filter_id ≠ 999) ∧
    (FilterDefinitions.getFilterInfoById 999).filter_id = 999 ∧
    (FilterDefinitions.getFilterInfoById 999).filter_id ≠ -1 := by
  decide

/-- Claim C29: for every name in `SUPPORTED_FILTERS`, lookup by name returns a registry
entry whose identifier is not −1 and equals `getFilterIdFromName` of the name, and lookup
by that identifier returns a record with the same name; the names of the registry are
pairwise distinct, and so are its identifiers. -/
theorem registry_consistent_with_resolution :
    (∀ name ∈ FilterDefinitions.SUPPORTED_FILTERS,
      FilterDefinitions.getFilterInfo name ∈ FilterDefinitions.getAllFilters ∧
      (FilterDefinitions.getFilterInfo name).filter_id ≠ -1 ∧
      (FilterDefinitions.getFilterInfo name).filter_id = getFilterIdFromName name ∧
      (FilterDefinitions.getFilterInfoById
        (FilterDefinitions.getFilterInfo name).filter_id).name = name) ∧
    (FilterDefinitions.getAllFilters.map (fun f => f.name)).Nodup ∧
    (FilterDefinitions.getAllFilters.map (fun f => f.filter_id)).Nodup := by
  refine ⟨?_, registry_names_nodup, registry_ids_nodup⟩
  decide

/-- The witness of `registry_consistent_with_resolution` at the name `ZSTD`. -/
theorem registry_consistent_with_resolution_witness :
    FilterDefinitions.getFilterInfo "ZSTD" ∈ FilterDefinitions.getAllFilters ∧
    (FilterDefinitions.getFilterInfo "ZSTD").filter_id ≠ -1 ∧
    (FilterDefinitions.getFilterInfo "ZSTD").filter_id = getFilterIdFromName "ZSTD" ∧
    (FilterDefinitions.getFilterInfoById
      (FilterDefinitions.getFilterInfo "ZSTD").filter_id).name = "ZSTD" :=
  registry_consistent_with_resolution.1 "ZSTD" (by decide)

/-! ## Input selection -/

/-- Claim C24 at its failing input: a working directory whose only entry is the regular
file `reads.h5`.  Called with the pattern `*.h5`, `listFiles` returns nothing, because
the file name does not contain the four characters `*.h5`, and `test` without `--input`
falls back to `test_data.h5`.  The same directory is listed in full for the pattern `*`
and for the pattern `.h5`; a file whose name does contain `*.h5` is returned. -/
theorem listFiles_star_is_literal :
    listFiles [{ path := "./reads.h5", filename := "reads.h5", isRegularFile := true }]
      "*.h5" = [] ∧
    chooseInputFile ""
      [{ path := "./reads.h5", filename := "reads.h5", isRegularFile := true }] =
      "test_data.h5" ∧
    listFiles [{ path := "./reads.h5", filename := "reads.h5", isRegularFile := true }]
      "*" = ["./reads.h5"] ∧
    listFiles [{ path := "./reads.h5", filename := "reads.h5", isRegularFile := true }]
      ".h5" = ["./reads.h5"] ∧
    listFiles [{ path := "./a*.h5", filename := "a*.h5", isRegularFile := true }]
      "*.h5" = ["./a*.h5"] := by
  decide

/-! ## BZIP2 levels -/

/-- Claim C27: for the BZIP2 codec the derived vector is `[level]` when
`1 <= level <= 8` and `[2]` for every other level; level 9 gives `[2]`, and 9 is one of the
levels `[1, 6, 9]` the sweep runs for BZIP2 whatever the sweep-all flag is. -/
theorem bzip2_params (level : Int) (test_all_levels : Bool) :
    (1 ≤ level ∧ level ≤ 8 → getDefaultFilterParams H5Z_FILTER_BZIP2 level = [level.toNat]) ∧
    (¬ (1 ≤ level ∧ level ≤ 8) → getDefaultFilterParams H5Z_FILTER_BZIP2 level = [2]) ∧
    getDefaultFilterParams H5Z_FILTER_BZIP2 9 = [2] ∧
    levelsFor test_all_levels "BZIP2" = [1, 6, 9] := by
  have hdef : getDefaultFilterParams H5Z_FILTER_BZIP2 level =
      [toUInt32 (if level > 0 ∧ level < 9 then level else 2)] := by
    simp [getDefaultFilterParams, H5Z_FILTER_BZIP2, H5Z_FILTER_DEFLATE]
  refine ⟨?_, ?_, by decide, levelsFor_default _ _⟩
  · intro h
    rw [hdef, if_pos (by omega), toUInt32_of_nonneg _ (by omega) (by omega)]
  · intro h
    rw [hdef, if_neg (by omega)]
    rfl

/-- The witness of `bzip2_params` at level 6. -/
theorem bzip2_params_witness :
    getDefaultFilterParams H5Z_FILTER_BZIP2 6 = [(6 : Int).toNat] :=
  (bzip2_params 6 true).1 (by decide)

/-! ## Registry parameter counts and the two derivers -/

/-- Claim C28, as the code has it: over the registry entries and their supported levels,
the length of the vector the run executor derives lies between the registered minimum and
maximum parameter counts exactly for the entries other than BLOSC, BLOSC2 and ZFP, and,
for BSHUF, for the levels other than 0. -/
theorem param_count_within_registry :
    ∀ f ∈ FilterDefinitions.getAllFilters, ∀ level ∈ f.supported_levels,
      (ParamCountOk f level ↔
        (f.name ≠ "BLOSC" ∧ f.name ≠ "BLOSC2" ∧ f.name ≠ "ZFP" ∧
          ¬ (f.name = "BSHUF" ∧ level = 0))) := by
  decide

/-- The witness of `param_count_within_registry`: ZSTD at level 19. -/
theorem param_count_within_registry_witness :
    ParamCountOk (FilterDefinitions.getFilterInfo "ZSTD") 19 ↔
      ((FilterDefinitions.getFilterInfo "ZSTD").name ≠ "BLOSC" ∧
        (FilterDefinitions.getFilterInfo "ZSTD").name ≠ "BLOSC2" ∧
        (FilterDefinitions.getFilterInfo "ZSTD").name ≠ "ZFP" ∧
        ¬ ((FilterDefinitions.getFilterInfo "ZSTD").name = "BSHUF" ∧ (19 : Int) = 0)) :=
  param_count_within_registry (FilterDefinitions.getFilterInfo "ZSTD") (by decide) 19
    (by decide)

/-- Claim C28 as stated fails: BLOSC is registered with level 0 and parameter counts 4 to
4, and the vector derived for it at level 0 has 7 fields; ZFP at level 1 gets 1 field for
a registered count of 4, and BSHUF at level 0 gets none for a registered count of 1. -/
theorem param_count_outside_registry :
    FilterDefinitions.getFilterInfo "BLOSC" ∈ FilterDefinitions.getAllFilters ∧
    (0 : Int) ∈ (FilterDefinitions.getFilterInfo "BLOSC").supported_levels ∧
    (FilterDefinitions.getFilterInfo "BLOSC").min_params = 4 ∧
    (FilterDefinitions.getFilterInfo "BLOSC").max_params = 4 ∧
    (getDefaultFilterParams (FilterDefinitions.getFilterInfo "BLOSC").filter_id 0).length = 7 ∧
    ¬ ParamCountOk (FilterDefinitions.getFilterInfo "BLOSC") 0 ∧
    ¬ ParamCountOk (FilterDefinitions.getFilterInfo "ZFP") 1 ∧
    ¬ ParamCountOk (FilterDefinitions.getFilterInfo "BSHUF") 0 := by
  decide

/-- Claim C30, as the code has it: over the registry entries and their supported levels,
the public deriver and the deriver `testCompression` uses return the same vector exactly
for GZIP, BITGROOM, BSHUF, GRANULARBR, LZF and VBZ at every level, for BZIP2 at the levels
other than 9, and for SZIP at level 32; they differ for LZ4, ZSTD, BLOSC, BLOSC2 and ZFP
at every level, for BZIP2 at level 9 and for SZIP at levels 4 and 8. -/
theorem derivers_agree_exactly_on :
    ∀ f ∈ FilterDefinitions.getAllFilters, ∀ level ∈ f.supported_levels,
      (DeriversAgree f level ↔
        (f.name = "GZIP" ∨ f.name = "BITGROOM" ∨ f.name = "BSHUF" ∨ f.name = "GRANULARBR" ∨
          f.name = "LZF" ∨ f.name = "VBZ" ∨ (f.name = "BZIP2" ∧ level ≠ 9) ∨
          (f.name = "SZIP" ∧ level = 32))) := by
  decide

/-- The witness of `derivers_agree_exactly_on`: GZIP at level 6. -/
theorem derivers_agree_exactly_on_witness :
    DeriversAgree (FilterDefinitions.getFilterInfo "GZIP") 6 ↔
      ((FilterDefinitions.getFilterInfo "GZIP").name = "GZIP" ∨
        (FilterDefinitions.getFilterInfo "GZIP").name = "BITGROOM" ∨
        (FilterDefinitions.getFilterInfo "GZIP").name = "BSHUF" ∨
        (FilterDefinitions.getFilterInfo "GZIP").name = "GRANULARBR" ∨
        (FilterDefinitions.getFilterInfo "GZIP").name = "LZF" ∨
        (FilterDefinitions.getFilterInfo "GZIP").name = "VBZ" ∨
        ((FilterDefinitions.getFilterInfo "GZIP").name = "BZIP2" ∧ (6 : Int) ≠ 9) ∨
        ((FilterDefinitions.getFilterInfo "GZIP").name = "SZIP" ∧ (6 : Int) = 32)) :=
  derivers_agree_exactly_on (FilterDefinitions.getFilterInfo "GZIP") (by decide) 6
    (by decide)

/-- Claim C30 as stated fails: ZSTD is registered with level 1, for which the public
deriver returns `[1]` and the deriver `testCompression` uses returns `[2]`; for LZ4 at
level 1 they return `[65536]` and `[4294967295]`. -/
theorem derivers_disagree :
    FilterDefinitions.getFilterInfo "ZSTD" ∈ FilterDefinitions.getAllFilters ∧
    (1 : Int) ∈ (FilterDefinitions.getFilterInfo "ZSTD").supported_levels ∧
    FilterDefinitions.getDefaultFilterParams H5Z_FILTER_ZSTD 1 = [1] ∧
    getDefaultFilterParams H5Z_FILTER_ZSTD 1 = [2] ∧
    ¬ DeriversAgree (FilterDefinitions.getFilterInfo "ZSTD") 1 ∧
    FilterDefinitions.getDefaultFilterParams H5Z_FILTER_LZ4 1 = [65536] ∧
    getDefaultFilterParams H5Z_FILTER_LZ4 1 = [4294967295] := by
  decide

/-! ## Filter application of the dataset step -/

theorem datasetStep_filterCalls (v : VisitEnv) (s : WalkState) :
    (filterReached v → (datasetStep v s).2.fx.filterCalls =
      (applyFilter s.data.filter_id s.data.filter_params v.lz4Avail).toList ++
        s.fx.filterCalls) ∧
    (¬ filterReached v → (datasetStep v s).2.fx.filterCalls = s.fx.filterCalls) := by
  unfold filterReached
  constructor
  · rintro ⟨ht, h1, h2, h3⟩
    have h1' : ¬ v.srcDsetId < 0 := not_lt.mpr h1
    have h2' : ¬ v.srcDcplId < 0 := not_lt.mpr h2
    have h3' : ¬ v.dcplId < 0 := not_lt.mpr h3
    unfold datasetStep
    simp only [ht, h1', h2', h3', if_true, if_false, acquire_data]
    cases hf : applyFilter s.data.filter_id s.data.filter_params v.lz4Avail with
    | none => simp
    | some call =>
      simp only [(transferStep_fx v _).2.1]
      simp
  · intro hn
    unfold datasetStep
    by_cases ht : isTargetDataset v.name = true
    · by_cases h1 : v.srcDsetId < 0
      · simp [ht, h1]
      · by_cases h2 : v.srcDcplId < 0
        · simp [ht, h1, h2]
        · by_cases h3 : v.dcplId < 0
          · simp [ht, h1, h2, h3]
          · exact absurd ⟨ht, not_lt.mp h1, not_lt.mp h2, not_lt.mp h3⟩ hn
    · simp [ht]

/-- Claim C25, as the code has it: when the dataset step reaches the filter application it
makes at most one filter call, chosen by identifier: SZIP uses `H5Pset_szip` with
`(params[0], params[1])`, or `(4, 32)` when fewer than two parameters are given; SHUFFLE
uses `H5Pset_shuffle`; DEFLATE uses `H5Pset_deflate` with `params[0]`, or 6 when the
vector is empty; LZ4, when `H5Zfilter_avail` reports it available, uses `H5Pset_filter`
with the mandatory flag and the fixed vector `[64]`, and makes no filter call at all when
it is unavailable; every other identifier uses `H5Pset_filter` with the optional flag and
the derived vector unchanged.  A step that does not reach the filter application makes no
filter call. -/
theorem filter_application (v : VisitEnv) (s : WalkState) (filter_id : Int)
    (params : List Nat) (avail : Int) :
    (filterReached v → (datasetStep v s).2.fx.filterCalls =
      (applyFilter s.data.filter_id s.data.filter_params v.lz4Avail).toList ++
        s.fx.filterCalls) ∧
    (¬ filterReached v → (datasetStep v s).2.fx.filterCalls = s.fx.filterCalls) ∧
    (∀ p0 p1 rest, applyFilter H5Z_FILTER_SZIP (p0 :: p1 :: rest) avail =
      some (FilterCall.szip p0 p1)) ∧
    (params.length < 2 → applyFilter H5Z_FILTER_SZIP params avail =
      some (FilterCall.szip 4 32)) ∧
    applyFilter H5Z_FILTER_SHUFFLE params avail = some FilterCall.shuffle ∧
    (∀ p0 rest, applyFilter H5Z_FILTER_DEFLATE (p0 :: rest) avail =
      some (FilterCall.deflate p0)) ∧
    applyFilter H5Z_FILTER_DEFLATE [] avail = some (FilterCall.deflate 6) ∧
    (avail ≠ 0 → applyFilter H5Z_FILTER_LZ4 params avail =
      some (FilterCall.generic H5Z_FILTER_LZ4 true [64])) ∧
    (avail = 0 → applyFilter H5Z_FILTER_LZ4 params avail = none) ∧
    (filter_id ≠ H5Z_FILTER_SZIP → filter_id ≠ H5Z_FILTER_SHUFFLE →
      filter_id ≠ H5Z_FILTER_DEFLATE → filter_id ≠ H5Z_FILTER_LZ4 →
      applyFilter filter_id params avail =
        some (FilterCall.generic filter_id false params)) := by
  refine ⟨(datasetStep_filterCalls v s).1, (datasetStep_filterCalls v s).2,
    ?_, ?_, ?_, ?_, ?_, ?_, ?_, ?_⟩
  · intro p0 p1 rest
    simp [applyFilter]
  · intro h
    have h' : ¬ params.length ≥ 2 := by omega
    simp [applyFilter, h']
  · simp [applyFilter, H5Z_FILTER_SHUFFLE, H5Z_FILTER_SZIP]
  · intro p0 rest
    simp [applyFilter, H5Z_FILTER_DEFLATE, H5Z_FILTER_SHUFFLE, H5Z_FILTER_SZIP]
  · simp [applyFilter, H5Z_FILTER_DEFLATE, H5Z_FILTER_SHUFFLE, H5Z_FILTER_SZIP]
  · intro h
    simp [applyFilter, H5Z_FILTER_LZ4, H5Z_FILTER_DEFLATE, H5Z_FILTER_SHUFFLE,
      H5Z_FILTER_SZIP, h]
  · intro h
    exact (applyFilter_eq_none _ _ _).mpr ⟨rfl, h⟩
  · intro h1 h2 h3 h4
    simp [applyFilter, h1, h2, h3, h4]

/-- The witness of `filter_application`: a matching dataset under ZSTD with the vector
derived for level 9. -/
theorem filter_application_witness :
    (datasetStep (okVisit "read_0/Raw/Signal" ObjType.dataset [] 1000 100)
      (initState H5Z_FILTER_ZSTD [20])).2.fx.filterCalls =
      (applyFilter (initState H5Z_FILTER_ZSTD [20]).data.filter_id
        (initState H5Z_FILTER_ZSTD [20]).data.filter_params
        (okVisit "read_0/Raw/Signal" ObjType.dataset [] 1000 100).lz4Avail).toList ++
        (initState H5Z_FILTER_ZSTD [20]).fx.filterCalls :=
  (filter_application (okVisit "read_0/Raw/Signal" ObjType.dataset [] 1000 100)
    (initState H5Z_FILTER_ZSTD [20]) H5Z_FILTER_ZSTD [20] 1).1 (by decide)

/-- Claim C25 as stated fails for LZ4: at level 6 the derived vector is `[715827882]`,
and the generic call the dataset step makes passes `[64]` instead; when the filter is
reported unavailable the step makes no filter call and returns −1. -/
theorem lz4_call_ignores_derived_vector :
    getDefaultFilterParams H5Z_FILTER_LZ4 6 = [715827882] ∧
    (datasetStep (okVisit "read_0/Raw/Signal" ObjType.dataset [] 1000 100)
      (initState H5Z_FILTER_LZ4 (getDefaultFilterParams H5Z_FILTER_LZ4 6))).2.fx.filterCalls =
      [FilterCall.generic H5Z_FILTER_LZ4 true [64]] ∧
    (datasetStep { okVisit "read_0/Raw/Signal" ObjType.dataset [] 1000 100 with lz4Avail := 0 }
      (initState H5Z_FILTER_LZ4 (getDefaultFilterParams H5Z_FILTER_LZ4 6))).2.fx.filterCalls =
      [] ∧
    (datasetStep { okVisit "read_0/Raw/Signal" ObjType.dataset [] 1000 100 with lz4Avail := 0 }
      (initState H5Z_FILTER_LZ4 (getDefaultFilterParams H5Z_FILTER_LZ4 6))).1 = -1 := by
  decide

/-! ## Frame of the group step -/

theorem mem_registeredChildPaths (q full_path : String) (children : List ChildEnv) :
    q ∈ registeredChildPaths full_path children ↔
      ∃ c ∈ children, registered c ∧ q = full_path ++ "/" ++ c.name := by
  unfold registeredChildPaths registered
  simp only [List.mem_map, List.mem_filter, decide_eq_true_eq]
  constructor
  · rintro ⟨c, ⟨hc, hr⟩, rfl⟩
    exact ⟨c, hc, hr, rfl⟩
  · rintro ⟨c, hc, hr, rfl⟩
    exact ⟨c, ⟨hc, hr⟩, rfl⟩

/-- Claim C26, as the code has it: for a visited group whose path P is not in the
materialized set, (1) if the property list is created, the shallow copy succeeds, the
destination group is opened and its member count is read, the set afterwards has exactly
the old members, P, and P + "/" + c for every member c whose name and info queries
succeed and that is a group (a member that is a dataset is never added); (2) if the copy
succeeds but the destination group cannot be opened or its member count cannot be read,
the set afterwards has exactly the old members and P; (3) if the property list cannot be
created or the copy fails, the set is unchanged; in every case both byte totals are
unchanged and the step returns 0. -/
theorem group_step_frame (v : VisitEnv) (s : WalkState)
    (hi : v.infoStatus ≥ 0) (ho : v.objType = ObjType.group)
    (hnew : v.name ∉ s.data.created_groups) :
    (v.ocpyplId ≥ 0 → v.copyStatus ≥ 0 → v.dstGroupId ≥ 0 → v.numStatus ≥ 0 →
      ∀ q, q ∈ (process_callback v s).2.data.created_groups ↔
        q ∈ s.data.created_groups ∨ q = v.name ∨
          q ∈ registeredChildPaths v.name v.children) ∧
    (∀ q ∈ registeredChildPaths v.name v.children,
      ∃ c ∈ v.children, c.type = ObjType.group ∧ q = v.name ++ "/" ++ c.name) ∧
    (v.ocpyplId ≥ 0 → v.copyStatus ≥ 0 → ¬ (v.dstGroupId ≥ 0 ∧ v.numStatus ≥ 0) →
      ∀ q, q ∈ (process_callback v s).2.data.created_groups ↔
        q ∈ s.data.created_groups ∨ q = v.name) ∧
    ((v.ocpyplId < 0 ∨ v.copyStatus < 0) →
      (process_callback v s).2.data.created_groups = s.data.created_groups) ∧
    (process_callback v s).2.data.original_size = s.data.original_size ∧
    (process_callback v s).2.data.compressed_size = s.data.compressed_size ∧
    (process_callback v s).1 = 0 := by
  rw [process_callback_of_group v s hi ho]
  have hcg := groupStep_created_groups v s
  have ht := groupStep_totals v s
  refine ⟨?_, ?_, ?_, ?_, ht.1, ht.2.1, rfl⟩
  · intro h1 h2 h3 h4 q
    have hc1 : ¬ (v.name ∈ s.data.created_groups ∨ v.ocpyplId < 0 ∨ v.copyStatus < 0) := by
      rintro (h | h | h)
      · exact hnew h
      · omega
      · omega
    show q ∈ (groupStep v s).data.created_groups ↔ _
    rw [hcg, if_neg hc1, if_pos ⟨h3, h4⟩, mem_registerChildren, mem_setInsert,
      mem_registeredChildPaths]
    tauto
  · intro q hq
    obtain ⟨c, hc, hr, rfl⟩ := (mem_registeredChildPaths _ _ _).mp hq
    exact ⟨c, hc, hr.2.2, rfl⟩
  · intro h1 h2 h3 q
    have hc1 : ¬ (v.name ∈ s.data.created_groups ∨ v.ocpyplId < 0 ∨ v.copyStatus < 0) := by
      rintro (h | h | h)
      · exact hnew h
      · omega
      · omega
    show q ∈ (groupStep v s).data.created_groups ↔ _
    rw [hcg, if_neg hc1, if_neg h3, mem_setInsert]
    tauto
  · intro h
    show (groupStep v s).data.created_groups = _
    rw [hcg, if_pos (Or.inr h)]

/-- The witness of `group_step_frame`: the group `a`, copied with its members, the group
`b` and the dataset `x`, into an empty destination; the path `a/b` is in the set afterwards
as a registered child. -/
theorem group_step_frame_witness :
    "a/b" ∈ (process_callback
        (okVisit "a" ObjType.group [okChild "b" ObjType.group, okChild "x" ObjType.dataset] 0 0)
        (initState H5Z_FILTER_DEFLATE [6])).2.data.created_groups ↔
      "a/b" ∈ (initState H5Z_FILTER_DEFLATE [6]).data.created_groups ∨
        "a/b" = (okVisit "a" ObjType.group
          [okChild "b" ObjType.group, okChild "x" ObjType.dataset] 0 0).name ∨
        "a/b" ∈ registeredChildPaths
          (okVisit "a" ObjType.group
            [okChild "b" ObjType.group, okChild "x" ObjType.dataset] 0 0).name
          (okVisit "a" ObjType.group
            [okChild "b" ObjType.group, okChild "x" ObjType.dataset] 0 0).children :=
  (group_step_frame
    (okVisit "a" ObjType.group [okChild "b" ObjType.group, okChild "x" ObjType.dataset] 0 0)
    (initState H5Z_FILTER_DEFLATE [6]) (by decide) rfl (by decide)).1
    (by decide) (by decide) (by decide) (by decide) "a/b"

/-- Claim C26 as stated fails: the group `a` is not in the set, its shallow copy succeeds
and creates the member group `a/b` in the destination, but `H5Gopen` on the destination
group fails; the set afterwards is `[a]` and lacks `a/b`.  With every call succeeding the
set is `[a/b, a]`. -/
theorem child_groups_need_open_group :
    (process_callback
      { okVisit "a" ObjType.group [okChild "b" ObjType.group] 0 0 with dstGroupId := -1 }
      (initState H5Z_FILTER_DEFLATE [6])).2.fx.copies = [("a", true)] ∧
    (process_callback
      { okVisit "a" ObjType.group [okChild "b" ObjType.group] 0 0 with dstGroupId := -1 }
      (initState H5Z_FILTER_DEFLATE [6])).2.fx.dstObjects =
      [("a", ObjType.group), ("a/b", ObjType.group)] ∧
    (process_callback
      { okVisit "a" ObjType.group [okChild "b" ObjType.group] 0 0 with dstGroupId := -1 }
      (initState H5Z_FILTER_DEFLATE [6])).2.data.created_groups = ["a"] ∧
    (process_callback (okVisit "a" ObjType.group [okChild "b" ObjType.group] 0 0)
      (initState H5Z_FILTER_DEFLATE [6])).2.data.created_groups = ["a/b", "a"] := by
  decide

end HDF5Bench
